import Mathlib

/-!
Shallow embedding of the bot control core of the repository
(src/executor/src/bot.rs), together with proofs about its perception
routines (target selection, point-of-interest selection), its damage
reaction, its per-tick update, and the Dying animation layer.

Modelling conventions:
* f32/f64 scalars are modelled as ℚ (exact arithmetic; the properties at
  stake are order/branch properties, not rounding properties).
* The physics ray cast, the frustum recomputation, vector normalization
  (which needs a square root) and the transcendental aim math (atan2/acos)
  are external services consumed by the core; they are modelled as
  environment-provided functions.
* `v.norm() <= r` for a constant r ≥ 0 is modelled exactly as ‖v‖² ≤ r².
-/

namespace Wood

/-- 3D vector over ℚ (models nalgebra Vector3 of f32). -/
structure Vec3 where
  x : ℚ
  y : ℚ
  z : ℚ
deriving DecidableEq, Repr

/-- Component-wise subtraction, `a - b`. -/
def Vec3.sub (a b : Vec3) : Vec3 :=
  ⟨a.x - b.x, a.y - b.y, a.z - b.z⟩

/-- `sqr_distance` from fyrox Vector3Ext. -/
def sqrDistance (a b : Vec3) : ℚ :=
  (a.x - b.x) ^ 2 + (a.y - b.y) ^ 2 + (a.z - b.z) ^ 2

/-- Squared euclidean norm. -/
def Vec3.sqrNorm (v : Vec3) : ℚ :=
  v.x ^ 2 + v.y ^ 2 + v.z ^ 2

/-- `v.norm() <= r` for r ≥ 0, expressed exactly as ‖v‖² ≤ r². -/
def Vec3.normLe (v : Vec3) (r : ℚ) : Bool :=
  decide (v.sqrNorm ≤ r * r)

/-- Target snapshot (struct `Target` in bot.rs): position + actor handle. -/
structure Target where
  position : Vec3
  handle : Nat
deriving DecidableEq, Repr

/-- `TargetDescriptor` (actor.rs, consumed by `Bot::select_target`). -/
structure TargetDescriptor where
  handle : Nat
  position : Vec3
deriving DecidableEq, Repr

/-- One ray-cast hit as `Bot::select_target` reads it: whether the hit
collider's shape is a triangle mesh, and the collider's parent body. -/
structure Hit where
  isTrimesh : Bool
  body : Nat
deriving DecidableEq, Repr

/-- The hit loop of `Bot::select_target` (bot.rs 871-884) on the sorted hit
list of the occlusion ray: a triangle-mesh collider hit means the target is
behind something (`continue target_loop`, i.e. the candidate is rejected);
a hit whose parent body is the bot's own body is skipped
(`continue hit_loop`), and any other non-trimesh hit likewise just falls
through to the next hit. -/
def occludes (selfBody : Nat) : List Hit → Bool
  | [] => false
  | hit :: rest =>
    if hit.isTrimesh then
      true
    else
      if hit.body == selfBody then
        occludes selfBody rest
      else
        occludes selfBody rest

/-- Modelled from the spec: the occlusion condition as claim C2 words it —
the FIRST hit of the ray whose body is not the bot's own body is a
triangle-mesh collider.  (Definition follows the spec text, for comparison
with `occludes`, which follows the source.) -/
def firstNonSelfHitIsTrimesh (selfBody : Nat) : List Hit → Bool
  | [] => false
  | hit :: rest =>
    if hit.body == selfBody then firstNonSelfHitIsTrimesh selfBody rest
    else hit.isTrimesh

/-- `sqr_d < closest_distance`, where the initial
`closest_distance = f32::MAX` sentinel is modelled as `none`. -/
def ltClosest (d : ℚ) : Option ℚ → Bool
  | none => true
  | some c => decide (d < c)

/-- The slice of `(self, scene)` that `Bot::select_target` reads: the bot's
actor handle, its body handle, its view frustum (as a containment test),
the physics ray cast (sorted hits of the ray between two points, modelling
`cast_ray` with `sort_results: true`), and the bot's position. -/
structure STCtx where
  selfHandle : Nat
  selfBody : Nat
  frustum : Vec3 → Bool
  castRay : Vec3 → Vec3 → List Hit
  position : Vec3

/-- The candidate loop of `Bot::select_target` (bot.rs 857-895).  The
accumulator pair models the locals `self.target` (reset to `None` before the
loop) and `closest_distance` (initialized to `f32::MAX`). -/
def selectTargetLoop (ctx : STCtx) :
    List TargetDescriptor → Option Target → Option ℚ → Option Target × Option ℚ
  | [], target, closest => (target, closest)
  | desc :: rest, target, closest =>
    if desc.handle != ctx.selfHandle && ctx.frustum desc.position then
      if occludes ctx.selfBody (ctx.castRay desc.position ctx.position) then
        -- Target is behind something.
        selectTargetLoop ctx rest target closest
      else
        let sqr_d := sqrDistance ctx.position desc.position
        if ltClosest sqr_d closest then
          selectTargetLoop ctx rest (some ⟨desc.position, desc.handle⟩) (some sqr_d)
        else
          selectTargetLoop ctx rest target closest
    else
      selectTargetLoop ctx rest target closest

/-- `Bot::select_target`: `self.target = None`, then the candidate loop. -/
def selectTargetResult (ctx : STCtx) (targets : List TargetDescriptor) : Option Target :=
  (selectTargetLoop ctx targets none none).1

/-- A candidate that is not self, inside the frustum, and unoccluded
(the conjunction of the spec's eligibility conditions with the code's
occlusion test). -/
def goodCandidate (ctx : STCtx) (desc : TargetDescriptor) : Bool :=
  desc.handle != ctx.selfHandle && ctx.frustum desc.position
    && !(occludes ctx.selfBody (ctx.castRay desc.position ctx.position))

/-! ## Animation machinery

The fyrox animation `Machine` and `Animation` types are external
collaborators (spec §1, §6); only their contract is specified (§4.1, §3).
They are modelled from the spec.  The transition tables, state sets, blend
durations, rule names and signal ids below are taken from the source
(`LocomotionMachine::new`, `CombatMachine::new`, `DyingMachine::new`). -/

/-- A timeline signal event sitting in an animation event queue. -/
structure AnimEvent where
  signal_id : Nat
deriving DecidableEq, Repr

/-- The slice of a fyrox `Animation` the core manipulates: playback
position, whether a non-looping animation has ended, the enabled flag, and
the queue of pending signal events (drained with `pop_event`). -/
structure AnimState where
  time_pos : ℚ
  has_ended : Bool
  enabled : Bool
  events : List AnimEvent
deriving DecidableEq, Repr

/-- Modelled from the spec: `Animation::rewind` restarts playback from time
zero (fyrox is an external collaborator). -/
def AnimState.rewind (a : AnimState) : AnimState :=
  { a with time_pos := 0, has_ended := false }

/-- `Animation::set_enabled`. -/
def AnimState.set_enabled (a : AnimState) (v : Bool) : AnimState :=
  { a with enabled := v }

/-- A machine transition: destination state, blend duration, rule name. -/
structure MachineTransition where
  dest : Nat
  duration : ℚ
  rule : String
deriving DecidableEq, Repr

/-- A machine layout: the outgoing transitions of each state, in
declaration order. -/
structure MachineDef where
  transitions : Nat → List MachineTransition

/-- Dynamic machine state: the active state, plus an in-progress transition
with its accumulated blend time, if any. -/
structure MachineState where
  active_state : Nat
  active_transition : Option (MachineTransition × ℚ)
deriving DecidableEq, Repr

/-- Modelled from the spec (§4.1; the fyrox `Machine` is an external
collaborator): one advance of a layer machine.  If no transition is in
progress, the outgoing transitions of the active state are scanned in
declaration order and the first one whose boolean rule parameter is true
begins; an in-progress transition accumulates blend time linearly and
completes — its destination becomes the active state — exactly when the
accumulated time reaches the configured duration (§8: blend weight reaches
1.0 exactly at the configured transition duration).  If no rule is true the
active state is left unchanged (§7(c)). -/
def machineAdvance (defn : MachineDef) (params : String → Bool) (dt : ℚ)
    (s : MachineState) : MachineState :=
  match s.active_transition with
  | some (tr, elapsed) =>
    let e := elapsed + dt
    if tr.duration ≤ e then ⟨tr.dest, none⟩ else ⟨s.active_state, some (tr, e)⟩
  | none =>
    match (defn.transitions s.active_state).find? (fun tr => params tr.rule) with
    | some tr =>
      if tr.duration ≤ dt then ⟨tr.dest, none⟩ else ⟨s.active_state, some (tr, dt)⟩
    | none => s

/-! State numbering follows the `add_state` declaration order in the source.
Locomotion (bot.rs 247-258): Jump, Falling, Walk, Idle; entry Idle.
Dying (bot.rs 412-418): Dying, Dead; entry Dying.
Combat (bot.rs 556-565): HitReaction, Aim, Whip. -/

def jump_state : Nat := 0
def falling_state : Nat := 1
def walk_state : Nat := 2
def idle_state : Nat := 3
def dying_state : Nat := 0
def dead_state : Nat := 1
def hit_reaction_state : Nat := 0
def aim_state : Nat := 1
def whip_state : Nat := 2

/-- `LocomotionMachine::STEP_SIGNAL`. -/
def STEP_SIGNAL : Nat := 1

/-- `CombatMachine::HIT_SIGNAL`. -/
def HIT_SIGNAL : Nat := 1

/-- Locomotion transition table (bot.rs 260-301), per-state outgoing lists
in declaration order, each with its blend duration and rule name. -/
def locomotion_table : MachineDef where
  transitions s :=
    if s = walk_state then
      [⟨idle_state, 1/2, "WalkToIdle"⟩, ⟨jump_state, 1/2, "WalkToJump"⟩]
    else if s = idle_state then
      [⟨walk_state, 1/2, "IdleToWalk"⟩, ⟨jump_state, 1/2, "IdleToJump"⟩]
    else if s = jump_state then
      [⟨falling_state, 1/2, "JumpToFalling"⟩]
    else if s = falling_state then
      [⟨idle_state, 1/2, "FallingToIdle"⟩]
    else []

/-- Combat transition table (bot.rs 567-601). -/
def combat_table : MachineDef where
  transitions s :=
    if s = aim_state then
      [⟨whip_state, 1/2, "AimToWhip"⟩, ⟨hit_reaction_state, 1/5, "AimToHitReaction"⟩]
    else if s = whip_state then
      [⟨aim_state, 1/2, "WhipToAim"⟩, ⟨hit_reaction_state, 1/5, "WhipToHitReaction"⟩]
    else if s = hit_reaction_state then
      [⟨aim_state, 1/2, "HitReactionToAim"⟩]
    else []

/-- Dying transition table (bot.rs 420-426): the single one-way 1.5 s
transition Dying→Dead. -/
def dying_table : MachineDef where
  transitions s :=
    if s = dying_state then [⟨dead_state, 3/2, "DyingToDead"⟩] else []

/-- Entry state of the locomotion machine (`set_entry_state(idle_state)`). -/
def locomotion_entry : MachineState := ⟨idle_state, none⟩

/-- Entry state of the dying machine (`set_entry_state(dying_state)`). -/
def dying_entry : MachineState := ⟨dying_state, none⟩

/-- Rule parameters set by `LocomotionMachine::apply` (bot.rs 331-355). -/
def locomotion_params (in_close_combat need_jump has_ground_contact : Bool) :
    String → Bool := fun p =>
  if p = "IdleToWalk" then !in_close_combat
  else if p = "WalkToIdle" then in_close_combat
  else if p = "WalkToJump" then need_jump
  else if p = "IdleToJump" then need_jump
  else if p = "JumpToFalling" then !has_ground_contact
  else if p = "FallingToIdle" then has_ground_contact
  else false

/-- Rule parameters set by `CombatMachine::apply` (bot.rs 623-643). -/
def combat_params (in_close_combat was_damaged can_aim : Bool) :
    String → Bool := fun p =>
  if p = "WhipToAim" then !in_close_combat
  else if p = "AimToWhip" then in_close_combat
  else if p = "WhipToHitReaction" then was_damaged
  else if p = "AimToHitReaction" then was_damaged
  else if p = "HitReactionToAim" then can_aim
  else false

/-- Rule parameter set by `DyingMachine::apply` (bot.rs 450-453). -/
def dying_params (is_dead : Bool) : String → Bool := fun p =>
  if p = "DyingToDead" then is_dead else false

/-- `LocomotionMachine::apply`: set the rule parameters, then advance
(`evaluate_pose` with the frame delta). -/
def LocomotionMachine.apply (dt : ℚ) (in_close_combat need_jump has_ground_contact : Bool)
    (m : MachineState) : MachineState :=
  machineAdvance locomotion_table
    (locomotion_params in_close_combat need_jump has_ground_contact) dt m

/-- `CombatMachine::apply`. -/
def CombatMachine.apply (dt : ℚ) (in_close_combat was_damaged can_aim : Bool)
    (m : MachineState) : MachineState :=
  machineAdvance combat_table (combat_params in_close_combat was_damaged can_aim) dt m

/-- The machine part of `DyingMachine::apply`. -/
def DyingMachine.step (dt : ℚ) (is_dead : Bool) (m : MachineState) : MachineState :=
  machineAdvance dying_table (dying_params is_dead) dt m

/-- `LocomotionMachine::is_walking` (bot.rs 312-317): the active state is
Walk, or a transition whose destination is Walk is in progress. -/
def is_walking (m : MachineState) : Bool :=
  m.active_state == walk_state ||
    (match m.active_transition with
     | some (tr, _) => tr.dest == walk_state
     | none => false)

/-! ## Bot state, environment and messages -/

/-- `BotKind` (bot.rs 48-55). -/
inductive BotKind where
  | mutant
  | parasite
  | maw
deriving DecidableEq, Repr

/-- The numeric per-kind tuning of `BotDefinition` (bot.rs 147-168).  Asset
paths and bone names are only used during async construction, which is not
modelled. -/
structure BotDefinition where
  scale : ℚ
  health : ℚ
  walk_speed : ℚ
  weapon_scale : ℚ
  v_aim_angle_hack : ℚ
deriving DecidableEq, Repr

/-- `Bot::get_definition` (bot.rs 650-728), numeric fields. -/
def get_definition : BotKind → BotDefinition
  | .mutant => ⟨17/2000, 100, 2, 13/5, -2⟩
  | .parasite => ⟨17/2000, 100, 2, 5/2, 12⟩
  | .maw => ⟨17/2000, 100, 2, 5/2, 16⟩

/-- fyrox `SmoothAngle`: current angle, target angle, max angular speed. -/
structure SmoothAngle where
  angle : ℚ
  target : ℚ
  speed : ℚ
deriving DecidableEq, Repr

/-- `SmoothAngle::set_target`. -/
def SmoothAngle.set_target (s : SmoothAngle) (t : ℚ) : SmoothAngle :=
  { s with target := t }

/-- Modelled from the spec: fyrox `SmoothAngle::update` (spec §4.4 step 9 —
interpolate the angle toward its target at a fixed maximum angular speed). -/
def SmoothAngle.update (s : SmoothAngle) (dt : ℚ) : SmoothAngle :=
  if |s.target - s.angle| ≤ s.speed * dt then { s with angle := s.target }
  else if s.angle < s.target then { s with angle := s.angle + s.speed * dt }
  else { s with angle := s.angle - s.speed * dt }

/-- An item as the POI scan reads it (`Item::position`,
`Item::is_picked_up`, item.rs 193-242). -/
structure Item where
  position : Vec3
  is_picked_up : Bool
deriving DecidableEq, Repr

/-- The `Bot` aggregate (bot.rs 80-99).  `health`, `weapons` and
`current_weapon` belong to the embedded `Character` (the deref target);
character.rs is not under src/, so those fields are modelled from the spec
(§3 Data model, §9 deref pattern) as plain fields.  The three layer
machines hold their dynamic `MachineState`. -/
structure Bot where
  target : Option Target
  kind : BotKind
  health : ℚ
  weapons : List Nat
  current_weapon : Nat
  locomotion_machine : MachineState
  combat_machine : MachineState
  dying_machine : MachineState
  last_health : ℚ
  restoration_time : ℚ
  frustum : Vec3 → Bool
  last_poi_update_time : ℚ
  point_of_interest : Vec3
  last_move_dir : Vec3
  spine_present : Bool
  yaw : SmoothAngle
  pitch : SmoothAngle

/-- Modelled from the spec: `Character::is_dead` (character.rs is not under
src/) — the bot is dead when its health is depleted (spec §3 lifecycle). -/
def Bot.is_dead (bot : Bot) : Bool :=
  decide (bot.health ≤ 0)

/-- `Bot::can_be_removed` (bot.rs 838-840). -/
def Bot.can_be_removed (bot : Bot) : Bool :=
  bot.dying_machine.active_state == dead_state

/-- `Bot::can_shoot` (bot.rs 842-844). -/
def Bot.can_shoot (bot : Bot) : Bool :=
  bot.combat_machine.active_state == aim_state

/-- The scene state the update tick reads and writes: the body's linear
velocity, the animation slices the combat layer manipulates, and the two
node rotations written by the aim routines. -/
structure Scene where
  lin_vel : Vec3
  hit_reaction_animation : AnimState
  whip_animation : AnimState
  walk_animation : AnimState
  dying_animation : AnimState
  dead_animation : AnimState
  spine_rotation : ℚ
  body_rotation : ℚ
deriving DecidableEq, Repr

/-- The environment of one tick: the bot's handles, the black-box physics
and math services (ray cast, frustum recomputation, normalization — which
needs a square root — and the transcendental pitch/yaw target math), the
navmesh agent position after its update, the item and weapon containers,
the clock, and the footstep random choice. -/
structure Env where
  self_handle : Nat
  self_body : Nat
  position : Vec3
  has_ground_contact : Bool
  castRay : Vec3 → Vec3 → List Hit
  agent_position : Vec3
  items : List Item
  ammo : Nat → Nat
  time_elapsed : ℚ
  time_delta : ℚ
  computeFrustum : Vec3 → (Vec3 → Bool)
  tryNormalize : Vec3 → Option Vec3
  pitchTarget : Vec3 → ℚ → ℚ
  yawTarget : Vec3 → ℚ
  footstepChoice : Nat → Nat

/-- Outbound messages (message.rs variants the bot emits).  `ShootWeapon`
carries the constant zero initial velocity and the (unnormalized) look
direction; `DamageActor` carries the default `who` handle (0) and the fixed
amount; `PlaySound` carries the chosen footstep sample index and the bot
position (gain, rolloff and radius are the constants 1.0, 2.0, 3.0). -/
inductive Message where
  | shootWeapon (weapon : Nat) (initial_velocity : Vec3) (direction : Option Vec3)
  | damageActor (actor : Nat) (who : Nat) (amount : ℚ)
  | playSound (path_index : Nat) (position : Vec3)
deriving DecidableEq, Repr

/-! ## The perception routines -/

/-- The `STCtx` a bot presents to `select_target`: its actor handle, its
body, its (previous-tick) view frustum, the physics ray cast, and its
position. -/
def Bot.stCtx (bot : Bot) (env : Env) : STCtx :=
  ⟨env.self_handle, env.self_body, bot.frustum, env.castRay, env.position⟩

/-- `Bot::select_target` (bot.rs 846-896): the previous target is cleared
and the candidate loop result stored. -/
def Bot.select_target (bot : Bot) (env : Env) (targets : List TargetDescriptor) :
    Bot :=
  { bot with target := selectTargetResult (bot.stCtx env) targets }

/-- The item loop of `Bot::select_point_of_interest` (bot.rs 903-912); the
accumulator pair models `self.point_of_interest` and the
`closest_distance = f32::MAX` local. -/
def poiLoop (self_position : Vec3) : List Item → Vec3 → Option ℚ → Vec3 × Option ℚ
  | [], poi, closest => (poi, closest)
  | item :: rest, poi, closest =>
    if !item.is_picked_up then
      let sqr_d := sqrDistance item.position self_position
      if ltClosest sqr_d closest then
        poiLoop self_position rest item.position (some sqr_d)
      else
        poiLoop self_position rest poi closest
    else
      poiLoop self_position rest poi closest

/-- `Bot::select_point_of_interest` (bot.rs 898-915): at most one scan per
1.25 s of simulated time; the scan picks the closest non-picked-up item and
the throttle timestamp is reset whenever the scan runs. -/
def Bot.select_point_of_interest (bot : Bot) (env : Env) : Bot :=
  if 5/4 ≤ env.time_elapsed - bot.last_poi_update_time then
    let scan := poiLoop env.position env.items bot.point_of_interest none
    { bot with point_of_interest := scan.1, last_poi_update_time := env.time_elapsed }
  else bot

/-- `Bot::select_weapon` (bot.rs 917-928).  `Character::current_weapon()`
and `set_current_weapon` live in character.rs, which is not under src/;
they are modelled from the spec (§4.2) as the weapon handle at the current
index and as storing an index. -/
def Bot.select_weapon (bot : Bot) (env : Env) : Bot :=
  match bot.weapons.get? bot.current_weapon with
  | some cur =>
    if env.ammo cur == 0 then
      match bot.weapons.findIdx? (fun h => decide (0 < env.ammo h)) with
      | some i => { bot with current_weapon := i }
      | none => bot
    else bot
  | none => bot

/-! ## The per-tick update (bot.rs 988-1163) -/

/-- The close-combat distance threshold (bot.rs 1015). -/
def close_combat_threshold : ℚ := 2

/-- Update step 2 (bot.rs 1005-1007): refresh target, weapon selection and
(throttled) point of interest. -/
def perceive (env : Env) (bot : Bot) (targets : List TargetDescriptor) : Bot :=
  ((bot.select_target env targets).select_weapon env).select_point_of_interest env

/-- Update step 3 (bot.rs 1011-1018): the `in_close_combat` flag and the
look direction — toward the target when present (close combat iff within
the threshold), else toward the point of interest. -/
def closeCombatLook (env : Env) (bot : Bot) : Bool × Vec3 :=
  match bot.target with
  | none => (false, bot.point_of_interest.sub env.position)
  | some target =>
    let d := target.position.sub env.position
    (d.normLe close_combat_threshold, d)

/-- Everything the damage-reaction fragment (bot.rs 1038-1050) produces. -/
structure DamageOut where
  bot : Bot
  hit_reaction : AnimState
  was_damaged : Bool
  can_aim : Bool

/-- The damage-reaction fragment of `Bot::update` (bot.rs 1038-1050):
`was_damaged` compares current health against the cached last-tick health;
on damage the hit-reaction animation is rewound only if it has ended, and
the restoration (cannot-aim) window is set to 0.8 s; `can_aim` then checks
the restoration timer, and the health cache is updated last. -/
def damageReaction (bot : Bot) (hit_reaction : AnimState) : DamageOut :=
  let was_damaged := decide (bot.health < bot.last_health)
  let hit_reaction :=
    if was_damaged then
      if hit_reaction.has_ended then hit_reaction.rewind else hit_reaction
    else hit_reaction
  let bot := if was_damaged then { bot with restoration_time := 4/5 } else bot
  let can_aim := decide (bot.restoration_time ≤ 0)
  let bot := { bot with last_health := bot.health }
  ⟨bot, hit_reaction, was_damaged, can_aim⟩

/-- The movement fragment (bot.rs 1052-1070): outside close combat, move
along the normalized direction toward the navmesh agent (grounded; the
velocity is the direction scaled by 1/delta with the vertical component
preserved, and the direction is cached), or along the cached last move
direction scaled by walk_speed/delta (airborne air control). -/
def moveStep (env : Env) (in_close_combat has_ground_contact : Bool)
    (position : Vec3) (bot : Bot) (scene : Scene) : Bot × Scene :=
  if !in_close_combat then
    if has_ground_contact then
      match env.tryNormalize (env.agent_position.sub position) with
      | some move_dir =>
        ({ bot with last_move_dir := move_dir },
         { scene with lin_vel :=
            ⟨move_dir.x / env.time_delta, scene.lin_vel.y, move_dir.z / env.time_delta⟩ })
      | none => (bot, scene)
    else
      -- A bit of air control.
      (bot,
       { scene with lin_vel :=
          ⟨bot.last_move_dir.x * ((get_definition bot.kind).walk_speed / env.time_delta),
           scene.lin_vel.y,
           bot.last_move_dir.z * ((get_definition bot.kind).walk_speed / env.time_delta)⟩ })
  else (bot, scene)

/-- The aim fragment (bot.rs 1074-1077, 961-986): when the look direction
normalizes, `aim_vertically` stores the previous pitch angle into the spine
rotation (if a spine bone exists) and retargets/advances the pitch toward
the transcendental pitch target (acos of the vertical component, corrected
by the per-kind constant); `aim_horizontally` does the same for the yaw
(atan2 of the horizontal components) and the body rotation. -/
def aimStep (env : Env) (look_dir : Vec3) (bot : Bot) (scene : Scene) : Bot × Scene :=
  match env.tryNormalize look_dir with
  | some ld =>
    let pitch_angle := bot.pitch.angle
    let new_pitch :=
      (bot.pitch.set_target
        (env.pitchTarget ld (get_definition bot.kind).v_aim_angle_hack)).update
        env.time_delta
    let bot1 := { bot with pitch := new_pitch }
    let scene1 :=
      if bot.spine_present then { scene with spine_rotation := pitch_angle } else scene
    let yaw_angle := bot1.yaw.angle
    let new_yaw := (bot1.yaw.set_target (env.yawTarget ld)).update env.time_delta
    let bot2 := { bot1 with yaw := new_yaw }
    (bot2, { scene1 with body_rotation := yaw_angle })
  | none => (bot, scene)

/-- The shoot-request fragment (bot.rs 1096-1110). -/
def shootMsgs (in_close_combat can_aim : Bool) (bot : Bot) (look_dir : Vec3) :
    List Message :=
  if !in_close_combat && can_aim && bot.can_shoot && bot.target.isSome then
    match bot.weapons.get? bot.current_weapon with
    | some weapon => [Message.shootWeapon weapon ⟨0, 0, 0⟩ (some look_dir)]
    | none => []
  else []

/-- The melee-damage fragment (bot.rs 1112-1130): only when a target
exists, the whip animation event queue is drained; each hit-signal event
emits a fixed 20.0 damage request against the target, but only while in
close combat. -/
def meleeStep (in_close_combat : Bool) (target : Option Target) (scene : Scene) :
    Scene × List Message :=
  match target with
  | some t =>
    ({ scene with whip_animation := { scene.whip_animation with events := [] } },
     scene.whip_animation.events.filterMap (fun ev =>
       if ev.signal_id == HIT_SIGNAL && in_close_combat then
         some (Message.damageActor t.handle 0 20)
       else none))
  | none => (scene, [])

/-- The footstep fragment (bot.rs 1132-1159): while the locomotion machine
is walking, the walk animation event queue is drained; each step-signal
event, only while grounded, emits a randomly chosen footstep sound. -/
def stepSounds (env : Env) (has_ground_contact : Bool) (loco : MachineState)
    (position : Vec3) (scene : Scene) : Scene × List Message :=
  if is_walking loco then
    ({ scene with walk_animation := { scene.walk_animation with events := [] } },
     scene.walk_animation.events.enum.filterMap (fun p =>
       if p.2.signal_id == STEP_SIGNAL && has_ground_contact then
         some (Message.playSound (env.footstepChoice p.1) position)
       else none))
  else (scene, [])

/-- The dead branch of `Bot::update` (bot.rs 994-1003): drive the Dying
layer only (which also enables its two animations) and zero the horizontal
velocity, leaving the vertical component. -/
def deadTick (env : Env) (bot : Bot) (scene : Scene) :
    Bot × Scene × List Message :=
  ({ bot with dying_machine := DyingMachine.step env.time_delta bot.is_dead bot.dying_machine },
   { scene with
      dying_animation := scene.dying_animation.set_enabled true,
      dead_animation := scene.dead_animation.set_enabled true,
      lin_vel := ⟨0, scene.lin_vel.y, 0⟩ },
   [])

/-- The live branch of `Bot::update` (bot.rs 1004-1162), phases in source
order: perception; close-combat flag and look direction; (the navmesh agent
query is external, its updated position is `env.agent_position`); jump
impulse; damage reaction; movement; frustum recomputation; aiming; the
locomotion and combat layer applications; then the shoot request, the melee
damage drain and the footstep drain; finally the restoration timer
decrement. -/
def liveTick (env : Env) (bot : Bot) (scene : Scene)
    (targets : List TargetDescriptor) : Bot × Scene × List Message :=
  let b1 := perceive env bot targets
  let has_ground_contact := env.has_ground_contact
  let cc := closeCombatLook env b1
  let in_close_combat := cc.1
  let look_dir := cc.2
  let position := env.position
  let need_jump := decide ((3 : ℚ)/10 ≤ look_dir.y) && has_ground_contact && in_close_combat
  let s1 :=
    if need_jump then
      { scene with lin_vel := ⟨scene.lin_vel.x, 2/25, scene.lin_vel.z⟩ }
    else scene
  let dr := damageReaction b1 s1.hit_reaction_animation
  let b2 := dr.bot
  let s2 := { s1 with hit_reaction_animation := dr.hit_reaction }
  let mv := moveStep env in_close_combat has_ground_contact position b2 s2
  let b3 := { mv.1 with frustum := env.computeFrustum position }
  let am := aimStep env look_dir b3 mv.2
  let new_loco :=
    LocomotionMachine.apply env.time_delta in_close_combat need_jump has_ground_contact
      am.1.locomotion_machine
  let b4 := { am.1 with locomotion_machine := new_loco }
  let new_combat :=
    CombatMachine.apply env.time_delta in_close_combat dr.was_damaged dr.can_aim
      b4.combat_machine
  let b5 := { b4 with combat_machine := new_combat }
  let sh := shootMsgs in_close_combat dr.can_aim b5 look_dir
  let me := meleeStep in_close_combat b5.target am.2
  let st := stepSounds env has_ground_contact b5.locomotion_machine position me.1
  let b6 := { b5 with restoration_time := b5.restoration_time - env.time_delta }
  (b6, st.1, sh ++ me.2 ++ st.2)

/-- `Bot::update` (bot.rs 988-1163). -/
def Bot.update (env : Env) (bot : Bot) (scene : Scene)
    (targets : List TargetDescriptor) : Bot × Scene × List Message :=
  if bot.is_dead then deadTick env bot scene else liveTick env bot scene targets

/-! ## Named observers for the live-tick intermediate values

Each `tick_*` definition names one intermediate of the `liveTick` chain (the
lemma `liveTick_parts` below states that `liveTick` is exactly their
assembly), so that theorems can speak about mid-tick values such as the
close-combat flag or the post-apply combat machine. -/

/-- The bot after the perception phase. -/
def tick_b1 (env : Env) (bot : Bot) (targets : List TargetDescriptor) : Bot :=
  perceive env bot targets

/-- The close-combat flag and look direction of the tick. -/
def tick_cc (env : Env) (bot : Bot) (targets : List TargetDescriptor) : Bool × Vec3 :=
  closeCombatLook env (tick_b1 env bot targets)

/-- The `in_close_combat` flag of the tick. -/
def tick_icc (env : Env) (bot : Bot) (targets : List TargetDescriptor) : Bool :=
  (tick_cc env bot targets).1

/-- The look direction of the tick. -/
def tick_look (env : Env) (bot : Bot) (targets : List TargetDescriptor) : Vec3 :=
  (tick_cc env bot targets).2

/-- The `need_jump` flag of the tick. -/
def tick_need_jump (env : Env) (bot : Bot) (targets : List TargetDescriptor) : Bool :=
  decide ((3 : ℚ)/10 ≤ (tick_look env bot targets).y) && env.has_ground_contact
    && tick_icc env bot targets

/-- The scene after the jump impulse. -/
def tick_s1 (env : Env) (bot : Bot) (scene : Scene)
    (targets : List TargetDescriptor) : Scene :=
  if tick_need_jump env bot targets then
    { scene with lin_vel := ⟨scene.lin_vel.x, 2/25, scene.lin_vel.z⟩ }
  else scene

/-- The damage-reaction output of the tick. -/
def tick_dr (env : Env) (bot : Bot) (scene : Scene)
    (targets : List TargetDescriptor) : DamageOut :=
  damageReaction (tick_b1 env bot targets)
    (tick_s1 env bot scene targets).hit_reaction_animation

/-- The scene after the damage reaction. -/
def tick_s2 (env : Env) (bot : Bot) (scene : Scene)
    (targets : List TargetDescriptor) : Scene :=
  { tick_s1 env bot scene targets with
      hit_reaction_animation := (tick_dr env bot scene targets).hit_reaction }

/-- Bot and scene after the movement phase. -/
def tick_mv (env : Env) (bot : Bot) (scene : Scene)
    (targets : List TargetDescriptor) : Bot × Scene :=
  moveStep env (tick_icc env bot targets) env.has_ground_contact env.position
    (tick_dr env bot scene targets).bot (tick_s2 env bot scene targets)

/-- The bot after the frustum recomputation. -/
def tick_b3 (env : Env) (bot : Bot) (scene : Scene)
    (targets : List TargetDescriptor) : Bot :=
  { (tick_mv env bot scene targets).1 with frustum := env.computeFrustum env.position }

/-- Bot and scene after the aim phase. -/
def tick_am (env : Env) (bot : Bot) (scene : Scene)
    (targets : List TargetDescriptor) : Bot × Scene :=
  aimStep env (tick_look env bot targets) (tick_b3 env bot scene targets)
    (tick_mv env bot scene targets).2

/-- The bot after the locomotion layer application. -/
def tick_b4 (env : Env) (bot : Bot) (scene : Scene)
    (targets : List TargetDescriptor) : Bot :=
  let m := LocomotionMachine.apply env.time_delta (tick_icc env bot targets)
    (tick_need_jump env bot targets) env.has_ground_contact
    (tick_am env bot scene targets).1.locomotion_machine
  { (tick_am env bot scene targets).1 with locomotion_machine := m }

/-- The bot after the combat layer application. -/
def tick_b5 (env : Env) (bot : Bot) (scene : Scene)
    (targets : List TargetDescriptor) : Bot :=
  let m := CombatMachine.apply env.time_delta (tick_icc env bot targets)
    (tick_dr env bot scene targets).was_damaged (tick_dr env bot scene targets).can_aim
    (tick_b4 env bot scene targets).combat_machine
  { tick_b4 env bot scene targets with combat_machine := m }

/-- The shoot-request messages of the tick. -/
def tick_sh (env : Env) (bot : Bot) (scene : Scene)
    (targets : List TargetDescriptor) : List Message :=
  shootMsgs (tick_icc env bot targets) (tick_dr env bot scene targets).can_aim
    (tick_b5 env bot scene targets) (tick_look env bot targets)

/-- Scene and messages after the melee-damage drain. -/
def tick_me (env : Env) (bot : Bot) (scene : Scene)
    (targets : List TargetDescriptor) : Scene × List Message :=
  meleeStep (tick_icc env bot targets) (tick_b5 env bot scene targets).target
    (tick_am env bot scene targets).2

/-- Scene and messages after the footstep drain. -/
def tick_st (env : Env) (bot : Bot) (scene : Scene)
    (targets : List TargetDescriptor) : Scene × List Message :=
  stepSounds env env.has_ground_contact
    (tick_b5 env bot scene targets).locomotion_machine env.position
    (tick_me env bot scene targets).1

/-- The final bot of the live tick (restoration timer decremented). -/
def tick_b6 (env : Env) (bot : Bot) (scene : Scene)
    (targets : List TargetDescriptor) : Bot :=
  { tick_b5 env bot scene targets with
      restoration_time := (tick_b5 env bot scene targets).restoration_time
        - env.time_delta }

/-! ## Concrete fixtures (used by witnesses and counterexamples) -/

/-- A baseline tick environment. -/
def exEnv : Env where
  self_handle := 0
  self_body := 100
  position := ⟨0, 0, 0⟩
  has_ground_contact := true
  castRay := fun _ _ => []
  agent_position := ⟨0, 0, 0⟩
  items := []
  ammo := fun _ => 5
  time_elapsed := 10
  time_delta := 1/10
  computeFrustum := fun _ => fun _ => true
  tryNormalize := fun _ => none
  pitchTarget := fun _ _ => 0
  yawTarget := fun _ => 0
  footstepChoice := fun _ => 0

/-- A baseline live bot: full health, combat layer in Aim, locomotion in
Idle, dying layer at entry, no weapons, recovery window elapsed. -/
def exBot : Bot where
  target := none
  kind := .mutant
  health := 100
  weapons := []
  current_weapon := 0
  locomotion_machine := ⟨idle_state, none⟩
  combat_machine := ⟨aim_state, none⟩
  dying_machine := dying_entry
  last_health := 100
  restoration_time := 0
  frustum := fun _ => true
  last_poi_update_time := 0
  point_of_interest := ⟨0, 0, 0⟩
  last_move_dir := ⟨0, 0, 0⟩
  spine_present := true
  yaw := ⟨0, 0, 0⟩
  pitch := ⟨0, 0, 0⟩

/-- A baseline scene: at rest, all animations fresh, empty event queues. -/
def exScene : Scene where
  lin_vel := ⟨0, 0, 0⟩
  hit_reaction_animation := ⟨0, false, true, []⟩
  whip_animation := ⟨0, false, true, []⟩
  walk_animation := ⟨0, false, true, []⟩
  dying_animation := ⟨0, false, false, []⟩
  dead_animation := ⟨0, false, false, []⟩
  spine_rotation := 0
  body_rotation := 0

/-- A bot that took damage this tick (health dropped 100 → 80). -/
def exC3bot : Bot := { exBot with health := 80, last_health := 100 }

/-- A hit-reaction animation mid-playback (not ended). -/
def exC3hrMid : AnimState := ⟨1/2, false, true, []⟩

/-- A hit-reaction animation that has ended. -/
def exC3hrEnded : AnimState := ⟨3/2, true, true, []⟩

/-- A single candidate well outside close-combat range. -/
def exC4targets : List TargetDescriptor := [⟨1, ⟨0, 0, 10⟩⟩]

/-- A bot owning one weapon (handle 7). -/
def exBotC4w : Bot := { exBot with weapons := [7] }

/-- The dying machine driven with `is_dead` held true for 1 s then 0.5 s. -/
def exC5machine : MachineState :=
  List.foldl (fun m d => DyingMachine.step d true m) dying_entry [1, 1/2]

/-- A dead bot carrying `exC5machine`. -/
def exC5bot : Bot := { exBot with health := 0, dying_machine := exC5machine }

/-- A POI call at t = 2 with one available item. -/
def exC6i : Env := { exEnv with time_elapsed := 2, items := [⟨⟨1, 0, 0⟩, false⟩] }

/-- A POI call at t = 3.25. -/
def exC6j : Env := { exEnv with time_elapsed := 13/4 }

/-- A dead bot in the baseline state. -/
def exDeadBot : Bot := { exBot with health := 0 }

/-- A single candidate in close-combat range (distance 1). -/
def exC8targets : List TargetDescriptor := [⟨1, ⟨0, 0, 1⟩⟩]

/-- A scene whose whip animation queue holds a hit event and a stray
event. -/
def exSceneC8 : Scene :=
  { exScene with whip_animation := ⟨0, false, true, [⟨1⟩, ⟨2⟩]⟩ }

/-- A POI call at t = 2 where the only item is picked up. -/
def exC9env : Env := { exEnv with time_elapsed := 2, items := [⟨⟨1, 0, 0⟩, true⟩] }

/-- A bot whose frustum rejects every point (so it acquires no target). -/
def exBotC10 : Bot := { exBot with frustum := fun _ => false }

/-- The hit list of the C2 counterexample ray: first a non-self ball
collider, then a triangle mesh. -/
def exC2hits : List Hit := [⟨false, 5⟩, ⟨true, 7⟩]

/-- The C2 counterexample context. -/
def exC2ctx : STCtx := ⟨0, 100, fun _ => true, fun _ _ => exC2hits, ⟨0, 0, 0⟩⟩

/-- The single candidate of the C2 counterexample. -/
def exC2desc : TargetDescriptor := ⟨1, ⟨1, 0, 0⟩⟩

/-- Messages that are damage requests (used to isolate the melee-damage
output of a tick). -/
def damageOnly (ms : List Message) : List Message :=
  ms.filter (fun m => match m with
    | .damageActor _ _ _ => true
    | _ => false)

/-- Invariant for the dying-machine fold with the rule held true: after
`acc` seconds of total advance the machine is still at entry (only possible
with zero elapsed), mid-blend with `acc` accumulated, or Dead once `acc`
reached the 1.5 s duration. -/
def DyingGood (s : MachineState) (acc : ℚ) : Prop :=
  (s = ⟨dying_state, none⟩ ∧ acc = 0) ∨
    (s = ⟨dying_state, some (⟨dead_state, 3/2, "DyingToDead"⟩, acc)⟩ ∧ acc < 3/2) ∨
    (s = ⟨dead_state, none⟩ ∧ 3/2 ≤ acc)

/-- Invariant tying the accumulators of the POI item loop together: the
recorded distance, when set, is the squared distance of the recorded
position of interest to the bot. -/
def PoiAccOk (pos poi : Vec3) (closest : Option ℚ) : Prop :=
  closest = none ∨ closest = some (sqrDistance poi pos)

/-- Invariant tying the two accumulators of the candidate loop together:
either both are unset, or the recorded distance is the squared distance to
the recorded target. -/
def AccOk (ctx : STCtx) (t : Option Target) (c : Option ℚ) : Prop :=
  (t = none ∧ c = none) ∨
    (∃ tg, t = some tg ∧ c = some (sqrDistance ctx.position tg.position))

theorem selectTargetLoop_spec (ctx : STCtx) :
    ∀ (ts : List TargetDescriptor) (t : Option Target) (c : Option ℚ),
      AccOk ctx t c →
      AccOk ctx (selectTargetLoop ctx ts t c).1 (selectTargetLoop ctx ts t c).2 ∧
      ((selectTargetLoop ctx ts t c).1 = t ∨
        ∃ d ∈ ts, goodCandidate ctx d = true ∧
          (selectTargetLoop ctx ts t c).1 = some ⟨d.position, d.handle⟩) ∧
      (∀ d ∈ ts, goodCandidate ctx d = true →
        ∃ q, (selectTargetLoop ctx ts t c).2 = some q ∧
          q ≤ sqrDistance ctx.position d.position) ∧
      (∀ q₀ q₁, c = some q₀ → (selectTargetLoop ctx ts t c).2 = some q₁ → q₁ ≤ q₀) := by
  intro ts
  induction ts with
  | nil =>
    intro t c hacc
    refine ⟨hacc, Or.inl rfl, ?_, ?_⟩
    · intro d hd
      exact absurd hd (List.not_mem_nil d)
    · intro q₀ q₁ h₀ h₁
      simp only [selectTargetLoop] at h₁
      rw [h₀] at h₁
      exact le_of_eq (Option.some.inj h₁).symm
  | cons d rest ih =>
    intro t c hacc
    by_cases helig : (d.handle != ctx.selfHandle && ctx.frustum d.position) = true
    · by_cases hocc : occludes ctx.selfBody (ctx.castRay d.position ctx.position) = true
      · -- occluded candidate: skipped
        have hloop : selectTargetLoop ctx (d :: rest) t c = selectTargetLoop ctx rest t c := by
          simp [selectTargetLoop, helig, hocc]
        have hgood : goodCandidate ctx d = false := by
          simp [goodCandidate, hocc, helig]
        obtain ⟨h1, h2, h3, h4⟩ := ih t c hacc
        rw [hloop]
        refine ⟨h1, ?_, ?_, h4⟩
        · rcases h2 with h | ⟨e, he, hge, hre⟩
          · exact Or.inl h
          · exact Or.inr ⟨e, List.mem_cons_of_mem d he, hge, hre⟩
        · intro e he hge
          rcases List.mem_cons.mp he with rfl | he
          · rw [hgood] at hge; exact absurd hge (by simp)
          · exact h3 e he hge
      · -- unoccluded eligible candidate
        have hgood : goodCandidate ctx d = true := by
          simp only [goodCandidate, Bool.and_eq_true] at *
          exact ⟨helig, by simp [hocc]⟩
        by_cases hlt : ltClosest (sqrDistance ctx.position d.position) c = true
        · -- closer: accumulator replaced
          have hloop : selectTargetLoop ctx (d :: rest) t c =
              selectTargetLoop ctx rest (some ⟨d.position, d.handle⟩)
                (some (sqrDistance ctx.position d.position)) := by
            simp [selectTargetLoop, helig, hocc, hlt]
          have hacc2 : AccOk ctx (some ⟨d.position, d.handle⟩)
              (some (sqrDistance ctx.position d.position)) :=
            Or.inr ⟨⟨d.position, d.handle⟩, rfl, rfl⟩
          obtain ⟨h1, h2, h3, h4⟩ := ih _ _ hacc2
          rw [hloop]
          have hsome : ∃ q, (selectTargetLoop ctx rest (some ⟨d.position, d.handle⟩)
              (some (sqrDistance ctx.position d.position))).2 = some q ∧
              q ≤ sqrDistance ctx.position d.position := by
            rcases h2 with h | ⟨e, _, _, hre⟩
            · rcases h1 with ⟨hn, _⟩ | ⟨tg, hs, hc⟩
              · rw [h] at hn; exact absurd hn (by simp)
              · exact ⟨_, hc, h4 _ _ rfl hc⟩
            · rcases h1 with ⟨hn, _⟩ | ⟨tg, hs, hc⟩
              · rw [hre] at hn; exact absurd hn (by simp)
              · exact ⟨_, hc, h4 _ _ rfl hc⟩
          refine ⟨h1, ?_, ?_, ?_⟩
          · rcases h2 with h | ⟨e, he, hge, hre⟩
            · exact Or.inr ⟨d, List.mem_cons_self d rest, hgood, h⟩
            · exact Or.inr ⟨e, List.mem_cons_of_mem d he, hge, hre⟩
          · intro e he hge
            rcases List.mem_cons.mp he with rfl | he
            · exact hsome
            · exact h3 e he hge
          · intro q₀ q₁ hq₀ hq₁
            -- new accumulated distance is strictly below the old one
            rcases hsome with ⟨q, hq, hle⟩
            rw [hq] at hq₁
            cases hq₁
            have hlt2 : sqrDistance ctx.position d.position < q₀ := by
              rw [hq₀] at hlt
              simpa [ltClosest] using hlt
            exact le_of_lt (lt_of_le_of_lt hle hlt2)
        · -- not closer: accumulator kept; current best is already ≤ sqr_d
          have hloop : selectTargetLoop ctx (d :: rest) t c = selectTargetLoop ctx rest t c := by
            simp [selectTargetLoop, helig, hocc, hlt]
          obtain ⟨h1, h2, h3, h4⟩ := ih t c hacc
          rw [hloop]
          have hc : ∃ c₀, c = some c₀ ∧ c₀ ≤ sqrDistance ctx.position d.position := by
            cases c with
            | none => simp [ltClosest] at hlt
            | some c₀ =>
              refine ⟨c₀, rfl, ?_⟩
              simp only [ltClosest, decide_eq_true_eq] at hlt
              exact le_of_not_lt (by simpa using hlt)
          rcases hc with ⟨c₀, rfl, hc₀⟩
          have hsome : ∃ q, (selectTargetLoop ctx rest t (some c₀)).2 = some q ∧
              q ≤ sqrDistance ctx.position d.position := by
            rcases hacc with ⟨_, hcn⟩ | ⟨tg, hs, hcs⟩
            · exact absurd hcn (by simp)
            · rcases h1 with ⟨hn, _⟩ | ⟨tg2, hs2, hc2⟩
              · rcases h2 with h | ⟨e, _, _, hre⟩
                · rw [h, hs] at hn; exact absurd hn (by simp)
                · rw [hre] at hn; exact absurd hn (by simp)
              · exact ⟨_, hc2, le_trans (h4 _ _ rfl hc2) hc₀⟩
          refine ⟨h1, ?_, ?_, h4⟩
          · rcases h2 with h | ⟨e, he, hge, hre⟩
            · exact Or.inl h
            · exact Or.inr ⟨e, List.mem_cons_of_mem d he, hge, hre⟩
          · intro e he hge
            rcases List.mem_cons.mp he with rfl | he
            · exact hsome
            · exact h3 e he hge
    · -- not eligible (self or out of frustum)
      have hloop : selectTargetLoop ctx (d :: rest) t c = selectTargetLoop ctx rest t c := by
        simp only [selectTargetLoop]
        rw [if_neg (by simpa using helig)]
      have hgood : goodCandidate ctx d = false := by
        simp only [goodCandidate]
        rw [Bool.and_eq_false_iff]
        exact Or.inl (by simpa using helig)
      obtain ⟨h1, h2, h3, h4⟩ := ih t c hacc
      rw [hloop]
      refine ⟨h1, ?_, ?_, h4⟩
      · rcases h2 with h | ⟨e, he, hge, hre⟩
        · exact Or.inl h
        · exact Or.inr ⟨e, List.mem_cons_of_mem d he, hge, hre⟩
      · intro e he hge
        rcases List.mem_cons.mp he with rfl | he
        · rw [hgood] at hge; exact absurd hge (by simp)
        · exact h3 e he hge

/-- `occludes` scans every hit: it holds iff some hit is a trimesh. -/
theorem occludes_eq_any (selfBody : Nat) (hits : List Hit) :
    occludes selfBody hits = hits.any (fun h => h.isTrimesh) := by
  induction hits with
  | nil => rfl
  | cons h rest ih =>
    simp only [occludes, List.any_cons]
    by_cases ht : h.isTrimesh = true
    · simp [ht]
    · simp only [Bool.not_eq_true] at ht
      simp [ht, ih]

/-- C1: `Bot::select_target` fully replaces the previous target (the result
does not depend on it); the result is none iff no candidate is eligible
(not self, inside the current frustum) and unoccluded; and a selected
target is the snapshot of such a candidate at minimal squared distance from
the bot's position among all of them. -/
theorem select_target_nearest_unoccluded (env : Env) (bot : Bot)
    (targets : List TargetDescriptor) :
    (∀ t₀ : Option Target,
      ({ bot with target := t₀ }.select_target env targets).target
        = (bot.select_target env targets).target) ∧
    ((bot.select_target env targets).target = none ↔
      ∀ d ∈ targets, goodCandidate (bot.stCtx env) d = false) ∧
    (∀ tg, (bot.select_target env targets).target = some tg →
      ∃ d ∈ targets, goodCandidate (bot.stCtx env) d = true ∧
        tg = ⟨d.position, d.handle⟩ ∧
        ∀ e ∈ targets, goodCandidate (bot.stCtx env) e = true →
          sqrDistance env.position d.position ≤ sqrDistance env.position e.position) := by
  obtain ⟨h1, h2, h3, _⟩ :=
    selectTargetLoop_spec (bot.stCtx env) targets none none (Or.inl ⟨rfl, rfl⟩)
  have hres : (bot.select_target env targets).target
      = (selectTargetLoop (bot.stCtx env) targets none none).1 := rfl
  refine ⟨fun t₀ => rfl, ?_, ?_⟩
  · constructor
    · intro hnone d hd
      by_contra hgood
      simp only [Bool.not_eq_false] at hgood
      obtain ⟨q, hq, _⟩ := h3 d hd hgood
      rw [hres] at hnone
      rcases h1 with ⟨_, hcn⟩ | ⟨tg, hs, _⟩
      · rw [hcn] at hq; exact Option.noConfusion hq
      · rw [hnone] at hs; exact Option.noConfusion hs
    · intro hno
      rw [hres]
      rcases h2 with h | ⟨d, hd, hgood, _⟩
      · exact h
      · rw [hno d hd] at hgood; exact Bool.noConfusion hgood
  · intro tg htg
    rw [hres] at htg
    rcases h2 with h | ⟨d, hd, hgood, hsome⟩
    · rw [htg] at h; exact Option.noConfusion h
    · refine ⟨d, hd, hgood, ?_, ?_⟩
      · rw [htg] at hsome; exact Option.some.inj hsome
      · intro e he hge
        obtain ⟨q, hq, hle⟩ := h3 e he hge
        rcases h1 with ⟨hn, _⟩ | ⟨tg2, hs2, hc2⟩
        · rw [htg] at hn; exact Option.noConfusion hn
        · rw [htg] at hs2
          have : tg2 = tg := Option.some.inj hs2.symm
          subst this
          rw [hc2] at hq
          have hqe : q = sqrDistance (bot.stCtx env).position tg2.position :=
            (Option.some.inj hq).symm
          have htgd : tg2.position = d.position := by
            rw [htg] at hsome
            rw [Option.some.inj hsome]
          rw [hqe, htgd] at hle
          exact hle

/-- Witness for C1 at a concrete input: with an always-false frustum no
candidate is eligible, so the target is set to none. -/
theorem select_target_nearest_unoccluded_witness :
    (({ exBot with frustum := fun _ => false }).select_target exEnv
        [⟨1, ⟨0, 0, 10⟩⟩]).target = none :=
  (select_target_nearest_unoccluded exEnv { exBot with frustum := fun _ => false }
      [⟨1, ⟨0, 0, 10⟩⟩]).2.1.mpr (by with_unfolding_all decide)

/-- C2 as stated is false: this candidate is eligible (not self, in
frustum) and the FIRST non-self hit of its occlusion ray is a ball
collider of another body, not a triangle mesh — so by the claim it is
unoccluded and, being the only candidate, would become the target; but the
code scans past it to the later trimesh hit, rejects the candidate, and
selects no target. -/
theorem select_target_occlusion_counterexample :
    (exC2desc.handle != exC2ctx.selfHandle
      && exC2ctx.frustum exC2desc.position) = true ∧
    firstNonSelfHitIsTrimesh exC2ctx.selfBody
      (exC2ctx.castRay exC2desc.position exC2ctx.position) = false ∧
    selectTargetResult exC2ctx [exC2desc] = none := by
  refine ⟨by with_unfolding_all decide, by with_unfolding_all decide,
    by with_unfolding_all decide⟩

/-- C2 corrected: an eligible candidate is rejected as occluded iff SOME
hit of its occlusion ray is a triangle-mesh collider (every non-trimesh
hit, self or not, is merely skipped); and a selected target always
originates from a candidate whose occlusion ray contains no trimesh hit, so
an occluded candidate is never selected even when nearest. -/
theorem occlusion_any_trimesh (ctx : STCtx) (targets : List TargetDescriptor) :
    (∀ (selfBody : Nat) (hits : List Hit),
      occludes selfBody hits = hits.any (fun h => h.isTrimesh)) ∧
    (∀ tg, selectTargetResult ctx targets = some tg →
      ∃ d ∈ targets, tg = ⟨d.position, d.handle⟩ ∧
        occludes ctx.selfBody (ctx.castRay d.position ctx.position) = false) := by
  refine ⟨occludes_eq_any, ?_⟩
  intro tg htg
  obtain ⟨h1, h2, h3, _⟩ :=
    selectTargetLoop_spec ctx targets none none (Or.inl ⟨rfl, rfl⟩)
  have htg2 : (selectTargetLoop ctx targets none none).1 = some tg := htg
  rcases h2 with h | ⟨d, hd, hgood, hsome⟩
  · rw [htg2] at h; exact Option.noConfusion h
  · refine ⟨d, hd, ?_, ?_⟩
    · rw [htg2] at hsome
      exact Option.some.inj hsome
    · simpa using (by simp only [goodCandidate, Bool.and_eq_true] at hgood; exact hgood.2 :
        (!occludes ctx.selfBody (ctx.castRay d.position ctx.position)) = true)

/-- Witness for the corrected C2 at a concrete hit list. -/
theorem occlusion_any_trimesh_witness :
    occludes 100 exC2hits = exC2hits.any (fun h => h.isTrimesh) :=
  (occlusion_any_trimesh exC2ctx []).1 100 exC2hits

/-- C3 as stated is false: on a damaged tick whose hit-reaction animation
is mid-playback (`has_ended` is false), the code leaves the animation
untouched — it is not restarted from time zero. -/
theorem damage_restart_counterexample :
    (exC3bot.health < exC3bot.last_health) ∧
    (damageReaction exC3bot exC3hrMid).was_damaged = true ∧
    (damageReaction exC3bot exC3hrMid).hit_reaction = exC3hrMid ∧
    exC3hrMid.time_pos ≠ 0 := by
  refine ⟨by with_unfolding_all decide, by with_unfolding_all decide,
    by with_unfolding_all decide, by with_unfolding_all decide⟩

/-- C3 corrected: on every damaged tick (health below the cached last-tick
health) the restoration window is set to exactly 0.8 s (so aiming is
blocked this tick), the health cache is updated after the comparison, and
the hit-reaction animation is rewound to time zero only if it had already
ended — mid-playback it is left running. -/
theorem damage_reaction_behavior (bot : Bot) (hr : AnimState)
    (h : bot.health < bot.last_health) :
    (damageReaction bot hr).was_damaged = true ∧
    (damageReaction bot hr).bot.restoration_time = 4/5 ∧
    (damageReaction bot hr).bot.last_health = bot.health ∧
    (damageReaction bot hr).hit_reaction = (if hr.has_ended then hr.rewind else hr) ∧
    (damageReaction bot hr).can_aim = false := by
  have hw : decide (bot.health < bot.last_health) = true := decide_eq_true h
  refine ⟨?_, ?_, ?_, ?_, ?_⟩
  · simp [damageReaction, hw]
  · simp [damageReaction, hw]
  · simp [damageReaction, hw]
  · simp [damageReaction, hw]
  · simp only [damageReaction, hw, if_true]
    norm_num

/-- Witness for the corrected C3: a damaged tick whose hit-reaction has
ended does rewind it, sets the window to 0.8 s and refreshes the cache. -/
theorem damage_reaction_behavior_witness :
    (damageReaction exC3bot exC3hrEnded).was_damaged = true ∧
    (damageReaction exC3bot exC3hrEnded).bot.restoration_time = 4/5 ∧
    (damageReaction exC3bot exC3hrEnded).bot.last_health = exC3bot.health ∧
    (damageReaction exC3bot exC3hrEnded).hit_reaction
      = (if exC3hrEnded.has_ended then exC3hrEnded.rewind else exC3hrEnded) ∧
    (damageReaction exC3bot exC3hrEnded).can_aim = false :=
  damage_reaction_behavior exC3bot exC3hrEnded (by with_unfolding_all decide)

/-- One advance of the dying machine from its entry state with the rule
true: the 1.5 s blend begins (and completes at once if the step is that
long). -/
theorem dying_step_entry (d : ℚ) :
    DyingMachine.step d true ⟨dying_state, none⟩
      = if (3 : ℚ)/2 ≤ d then ⟨dead_state, none⟩
        else ⟨dying_state, some (⟨dead_state, 3/2, "DyingToDead"⟩, d)⟩ := by
  simp [DyingMachine.step, machineAdvance, dying_table, dying_params, dying_state]

/-- One advance of the dying machine preserves the fold invariant. -/
theorem dying_step_good (d : ℚ) (hd : 0 ≤ d) (s : MachineState) (acc : ℚ)
    (h : DyingGood s acc) : DyingGood (DyingMachine.step d true s) (acc + d) := by
  rcases h with ⟨hs, hacc⟩ | ⟨hs, hlt⟩ | ⟨hs, hge⟩
  · subst hs
    rw [dying_step_entry]
    by_cases hc : (3 : ℚ)/2 ≤ d
    · rw [if_pos hc]
      exact Or.inr (Or.inr ⟨rfl, by rw [hacc, zero_add]; exact hc⟩)
    · rw [if_neg hc]
      rw [hacc, zero_add]
      exact Or.inr (Or.inl ⟨rfl, lt_of_not_le hc⟩)
  · subst hs
    show DyingGood (machineAdvance dying_table (dying_params true) d _) _
    simp only [machineAdvance]
    by_cases hc : (3 : ℚ)/2 ≤ acc + d
    · rw [if_pos hc]
      exact Or.inr (Or.inr ⟨rfl, hc⟩)
    · rw [if_neg hc]
      exact Or.inr (Or.inl ⟨rfl, lt_of_not_le hc⟩)
  · subst hs
    have hstay : DyingMachine.step d true ⟨dead_state, none⟩ = ⟨dead_state, none⟩ := by
      simp [DyingMachine.step, machineAdvance, dying_table, dead_state, dying_state]
    rw [hstay]
    exact Or.inr (Or.inr ⟨rfl, le_add_of_le_of_nonneg hge hd⟩)

/-- The dying-machine fold keeps the invariant, accumulating the summed
step times. -/
theorem dying_fold_good (ds : List ℚ) :
    (∀ d ∈ ds, 0 ≤ d) → ∀ (s : MachineState) (acc : ℚ), DyingGood s acc →
      DyingGood (ds.foldl (fun m d => DyingMachine.step d true m) s) (acc + ds.sum) := by
  induction ds with
  | nil =>
    intro _ s acc h
    simpa using h
  | cons d rest ih =>
    intro hnn s acc h
    have h1 := dying_step_good d (hnn d (List.mem_cons_self d rest)) s acc h
    have h2 := ih (fun x hx => hnn x (List.mem_cons_of_mem d hx)) _ _ h1
    simp only [List.foldl_cons, List.sum_cons]
    rw [← add_assoc]
    exact h2

/-- C5: `can_be_removed` is exactly "the Dying layer's active state is the
Dead terminal state"; driving the single 1.5 s Dying→Dead transition with
`is_dead` held true over any tick sequence makes it true exactly once the
summed simulated time reaches 1.5 s, and never before.  Each dead-bot tick
of `Bot::update` advances exactly this machine with the rule true. -/
theorem can_be_removed_after_dying_blend (ds : List ℚ) (bot : Bot)
    (hnn : ∀ d ∈ ds, 0 ≤ d)
    (hmach : bot.dying_machine
      = ds.foldl (fun m d => DyingMachine.step d true m) dying_entry) :
    (bot.can_be_removed = true ↔ 3/2 ≤ ds.sum) ∧
    (∀ (env : Env) (b : Bot) (scene : Scene) (targets : List TargetDescriptor),
      b.is_dead = true →
      (Bot.update env b scene targets).1.dying_machine
        = DyingMachine.step env.time_delta true b.dying_machine) := by
  constructor
  · have h := dying_fold_good ds hnn dying_entry 0 (Or.inl ⟨rfl, rfl⟩)
    rw [zero_add] at h
    rw [Bot.can_be_removed, hmach]
    rcases h with ⟨hs, hacc⟩ | ⟨hs, hlt⟩ | ⟨hs, hge⟩ <;> rw [hs]
    · constructor
      · intro hbad
        exact absurd hbad (by with_unfolding_all decide)
      · intro hbad
        rw [hacc] at hbad
        norm_num at hbad
    · constructor
      · intro hbad
        simp [dying_state, dead_state] at hbad
      · intro hbad
        exact absurd hbad (not_le_of_lt hlt)
    · simp only [beq_self_eq_true, true_iff]
      exact hge
  · intro env b scene targets hb
    simp [Bot.update, hb, deadTick]

/-- Witness for C5: after 1 s + 0.5 s of dead ticks the bot is removable
(the summed time reaches exactly 1.5 s). -/
theorem can_be_removed_witness :
    exC5bot.can_be_removed = true ↔ 3/2 ≤ ([1, 1/2] : List ℚ).sum :=
  (can_be_removed_after_dying_blend [1, 1/2] exC5bot
    (by with_unfolding_all decide) rfl).1

/-- Characterization of the POI item loop: the accumulator invariant is
kept; the result is the unchanged accumulator or comes from a non-picked-up
item of the list; every non-picked-up item bounds the recorded distance
from above; and the recorded distance never increases. -/
theorem poiLoop_spec (pos : Vec3) :
    ∀ (items : List Item) (poi : Vec3) (c : Option ℚ),
      PoiAccOk pos poi c →
      PoiAccOk pos (poiLoop pos items poi c).1 (poiLoop pos items poi c).2 ∧
      (((poiLoop pos items poi c).1 = poi ∧ (poiLoop pos items poi c).2 = c) ∨
        ∃ it ∈ items, it.is_picked_up = false ∧
          (poiLoop pos items poi c).1 = it.position ∧
          (poiLoop pos items poi c).2 = some (sqrDistance it.position pos)) ∧
      (∀ it ∈ items, it.is_picked_up = false →
        ∃ q, (poiLoop pos items poi c).2 = some q ∧ q ≤ sqrDistance it.position pos) ∧
      (∀ q₀ q₁, c = some q₀ → (poiLoop pos items poi c).2 = some q₁ → q₁ ≤ q₀) := by
  intro items
  induction items with
  | nil =>
    intro poi c hacc
    refine ⟨hacc, Or.inl ⟨rfl, rfl⟩, ?_, ?_⟩
    · intro it hit
      exact absurd hit (List.not_mem_nil it)
    · intro q₀ q₁ h₀ h₁
      simp only [poiLoop] at h₁
      rw [h₀] at h₁
      exact le_of_eq (Option.some.inj h₁).symm
  | cons it rest ih =>
    intro poi c hacc
    by_cases hp : it.is_picked_up = true
    · -- picked up: skipped
      have hloop : poiLoop pos (it :: rest) poi c = poiLoop pos rest poi c := by
        simp [poiLoop, hp]
      obtain ⟨h1, h2, h3, h4⟩ := ih poi c hacc
      rw [hloop]
      refine ⟨h1, ?_, ?_, h4⟩
      · rcases h2 with h | ⟨e, he, hne, hpe, hce⟩
        · exact Or.inl h
        · exact Or.inr ⟨e, List.mem_cons_of_mem it he, hne, hpe, hce⟩
      · intro e he hne
        rcases List.mem_cons.mp he with rfl | he
        · rw [hp] at hne; exact Bool.noConfusion hne
        · exact h3 e he hne
    · have hp2 : it.is_picked_up = false := by
        simpa using hp
      by_cases hlt : ltClosest (sqrDistance it.position pos) c = true
      · -- closer: accumulator replaced
        have hloop : poiLoop pos (it :: rest) poi c
            = poiLoop pos rest it.position (some (sqrDistance it.position pos)) := by
          simp [poiLoop, hp2, hlt]
        have hacc2 : PoiAccOk pos it.position (some (sqrDistance it.position pos)) :=
          Or.inr rfl
        obtain ⟨h1, h2, h3, h4⟩ := ih it.position (some (sqrDistance it.position pos)) hacc2
        rw [hloop]
        have hsome : ∃ q,
            (poiLoop pos rest it.position (some (sqrDistance it.position pos))).2 = some q ∧
            q ≤ sqrDistance it.position pos := by
          rcases h2 with ⟨_, hc2⟩ | ⟨e, _, _, _, hce⟩
          · exact ⟨_, hc2, le_refl _⟩
          · exact ⟨_, hce, h4 _ _ rfl hce⟩
        refine ⟨h1, ?_, ?_, ?_⟩
        · rcases h2 with ⟨hp1, hc1⟩ | ⟨e, he, hne, hpe, hce⟩
          · exact Or.inr ⟨it, List.mem_cons_self it rest, hp2, hp1, hc1⟩
          · exact Or.inr ⟨e, List.mem_cons_of_mem it he, hne, hpe, hce⟩
        · intro e he hne
          rcases List.mem_cons.mp he with rfl | he
          · exact hsome
          · exact h3 e he hne
        · intro q₀ q₁ hq₀ hq₁
          rcases hsome with ⟨q, hq, hle⟩
          rw [hq] at hq₁
          cases hq₁
          have hlt2 : sqrDistance it.position pos < q₀ := by
            rw [hq₀] at hlt
            simpa [ltClosest] using hlt
          exact le_of_lt (lt_of_le_of_lt hle hlt2)
      · -- not closer: accumulator kept
        have hloop : poiLoop pos (it :: rest) poi c = poiLoop pos rest poi c := by
          simp [poiLoop, hp2, hlt]
        obtain ⟨h1, h2, h3, h4⟩ := ih poi c hacc
        rw [hloop]
        have hc : ∃ c₀, c = some c₀ ∧ c₀ ≤ sqrDistance it.position pos := by
          cases c with
          | none => simp [ltClosest] at hlt
          | some c₀ =>
            refine ⟨c₀, rfl, ?_⟩
            simp only [ltClosest, decide_eq_true_eq] at hlt
            exact le_of_not_lt (by simpa using hlt)
        rcases hc with ⟨c₀, rfl, hc₀⟩
        have hsome : ∃ q, (poiLoop pos rest poi (some c₀)).2 = some q ∧
            q ≤ sqrDistance it.position pos := by
          rcases h2 with ⟨_, hc2⟩ | ⟨e, _, _, _, hce⟩
          · exact ⟨c₀, hc2, hc₀⟩
          · exact ⟨_, hce, le_trans (h4 _ _ rfl hce) hc₀⟩
        refine ⟨h1, ?_, ?_, h4⟩
        · rcases h2 with h | ⟨e, he, hne, hpe, hce⟩
          · exact Or.inl h
          · exact Or.inr ⟨e, List.mem_cons_of_mem it he, hne, hpe, hce⟩
        · intro e he hne
          rcases List.mem_cons.mp he with rfl | he
          · exact hsome
          · exact h3 e he hne

/-- A throttled call (elapsed below 1.25 s) leaves the bot unchanged. -/
theorem select_poi_unchanged_when_throttled (b : Bot) (e : Env)
    (h : ¬(5/4 ≤ e.time_elapsed - b.last_poi_update_time)) :
    b.select_point_of_interest e = b := by
  simp [Bot.select_point_of_interest, h]

/-- A scanning call records its own elapsed time into the throttle. -/
theorem select_poi_scan_last (b : Bot) (e : Env)
    (h : 5/4 ≤ e.time_elapsed - b.last_poi_update_time) :
    (b.select_point_of_interest e).last_poi_update_time = e.time_elapsed := by
  simp [Bot.select_point_of_interest, h]

/-- Any call either resets the throttle timestamp to its own time or leaves
it unchanged. -/
theorem select_poi_last_cases (b : Bot) (e : Env) :
    (b.select_point_of_interest e).last_poi_update_time = e.time_elapsed ∨
    (b.select_point_of_interest e).last_poi_update_time = b.last_poi_update_time := by
  unfold Bot.select_point_of_interest
  split
  · exact Or.inl rfl
  · exact Or.inr rfl

/-- Folding POI calls whose times are all at least `T`, from a bot whose
throttle timestamp is at least `T`, keeps the timestamp at least `T`. -/
theorem poi_fold_last_ge (T : ℚ) (es : List Env)
    (hes : ∀ e ∈ es, T ≤ e.time_elapsed) :
    ∀ b : Bot, T ≤ b.last_poi_update_time →
      T ≤ (es.foldl (fun x e => x.select_point_of_interest e) b).last_poi_update_time := by
  induction es with
  | nil =>
    intro b hb
    simpa using hb
  | cons e rest ih =>
    intro b hb
    simp only [List.foldl_cons]
    apply ih (fun x hx => hes x (List.mem_cons_of_mem e hx))
    rcases select_poi_last_cases b e with h | h
    · rw [h]
      exact hes e (List.mem_cons_self e rest)
    · rw [h]
      exact hb

/-- C6: in any call sequence (arbitrary tick rate), two calls whose scans
both run are at least 1.25 simulated seconds apart; a call below the
throttle changes nothing; and a scanning call resets the throttle timestamp
and, when an available item exists, stores the position of an available
item of minimal squared distance to the bot. -/
theorem poi_reselect_throttled (b : Bot) (pre mid : List Env) (ci cj : Env)
    (hmid : ∀ e ∈ mid, ci.time_elapsed ≤ e.time_elapsed)
    (hi : 5/4 ≤ ci.time_elapsed
      - (pre.foldl (fun x e => x.select_point_of_interest e) b).last_poi_update_time)
    (hj : 5/4 ≤ cj.time_elapsed
      - ((pre ++ ci :: mid).foldl (fun x e => x.select_point_of_interest e)
          b).last_poi_update_time) :
    5/4 ≤ cj.time_elapsed - ci.time_elapsed ∧
    (∀ (x : Bot) (e : Env), ¬(5/4 ≤ e.time_elapsed - x.last_poi_update_time) →
      x.select_point_of_interest e = x) ∧
    ((pre.foldl (fun x e => x.select_point_of_interest e)
        b).select_point_of_interest ci).last_poi_update_time = ci.time_elapsed ∧
    (∀ it ∈ ci.items, it.is_picked_up = false →
      ∃ best, best ∈ ci.items ∧ best.is_picked_up = false ∧
        ((pre.foldl (fun x e => x.select_point_of_interest e)
          b).select_point_of_interest ci).point_of_interest = best.position ∧
        sqrDistance best.position ci.position ≤ sqrDistance it.position ci.position) := by
  have hstep : ((pre.foldl (fun x e => x.select_point_of_interest e)
      b).select_point_of_interest ci).last_poi_update_time = ci.time_elapsed :=
    select_poi_scan_last _ _ hi
  refine ⟨?_, select_poi_unchanged_when_throttled, hstep, ?_⟩
  · have hfold : ((pre ++ ci :: mid).foldl (fun x e => x.select_point_of_interest e) b)
        = mid.foldl (fun x e => x.select_point_of_interest e)
            ((pre.foldl (fun x e => x.select_point_of_interest e)
              b).select_point_of_interest ci) := by
      rw [List.foldl_append, List.foldl_cons]
    have hge : ci.time_elapsed
        ≤ ((pre ++ ci :: mid).foldl (fun x e => x.select_point_of_interest e)
            b).last_poi_update_time := by
      rw [hfold]
      exact poi_fold_last_ge ci.time_elapsed mid hmid _ (le_of_eq hstep.symm)
    linarith
  · intro it hit hnp
    set bi := pre.foldl (fun x e => x.select_point_of_interest e) b with hbi
    obtain ⟨h1, h2, h3, _⟩ := poiLoop_spec ci.position ci.items
      bi.point_of_interest none (Or.inl rfl)
    have hpoi : (bi.select_point_of_interest ci).point_of_interest
        = (poiLoop ci.position ci.items bi.point_of_interest none).1 := by
      unfold Bot.select_point_of_interest
      rw [if_pos hi]
    obtain ⟨q, hq, hle⟩ := h3 it hit hnp
    rcases h2 with ⟨_, hc2⟩ | ⟨best, hbm, hnb, hpb, hcb⟩
    · rw [hc2] at hq
      exact Option.noConfusion hq
    · refine ⟨best, hbm, hnb, ?_, ?_⟩
      · rw [hpoi, hpb]
      · rw [hcb] at hq
        have : q = sqrDistance best.position ci.position := (Option.some.inj hq).symm
        rw [this] at hle
        exact hle

/-- Witness for C6: two scans at t = 2 and t = 3.25 are exactly 1.25 s
apart. -/
theorem poi_reselect_throttled_witness :
    (5 : ℚ)/4 ≤ exC6j.time_elapsed - exC6i.time_elapsed :=
  (poi_reselect_throttled exBot [] [] exC6i exC6j (by simp)
    (by with_unfolding_all decide) (by with_unfolding_all decide)).1

/-- The POI item loop ignores picked-up items entirely. -/
theorem poiLoop_all_picked (pos : Vec3) (items : List Item)
    (hall : ∀ it ∈ items, it.is_picked_up = true) :
    ∀ (poi : Vec3) (c : Option ℚ), poiLoop pos items poi c = (poi, c) := by
  induction items with
  | nil =>
    intro poi c
    rfl
  | cons it rest ih =>
    intro poi c
    have hp := hall it (List.mem_cons_self it rest)
    simp only [poiLoop, hp, Bool.not_true, Bool.false_eq_true, if_false]
    exact ih (fun x hx => hall x (List.mem_cons_of_mem it hx)) poi c

/-- C9: a scan that finds no available item (every item picked up) leaves
the stored point of interest unchanged, still resets the throttle timestamp
to the call's elapsed time, and thereby delays the next possible scan by a
further full 1.25 s. -/
theorem poi_fruitless_scan_resets_timer (bot : Bot) (env : Env)
    (hscan : 5/4 ≤ env.time_elapsed - bot.last_poi_update_time)
    (hall : ∀ it ∈ env.items, it.is_picked_up = true) :
    (bot.select_point_of_interest env).point_of_interest = bot.point_of_interest ∧
    (bot.select_point_of_interest env).last_poi_update_time = env.time_elapsed ∧
    (∀ e2 : Env, 5/4 ≤ e2.time_elapsed
        - (bot.select_point_of_interest env).last_poi_update_time →
      5/4 ≤ e2.time_elapsed - env.time_elapsed) := by
  refine ⟨?_, select_poi_scan_last bot env hscan, ?_⟩
  · simp [Bot.select_point_of_interest, hscan, poiLoop_all_picked env.position env.items hall]
  · intro e2 h2
    rwa [select_poi_scan_last bot env hscan] at h2

/-- Witness for C9 at a concrete fruitless scan. -/
theorem poi_fruitless_scan_witness :
    (exBot.select_point_of_interest exC9env).point_of_interest
      = exBot.point_of_interest ∧
    (exBot.select_point_of_interest exC9env).last_poi_update_time
      = exC9env.time_elapsed :=
  ⟨(poi_fruitless_scan_resets_timer exBot exC9env (by with_unfolding_all decide)
      (by with_unfolding_all decide)).1,
   (poi_fruitless_scan_resets_timer exBot exC9env (by with_unfolding_all decide)
      (by with_unfolding_all decide)).2.1⟩

/-! ## Live-tick decomposition and projection lemmas -/

/-- The live tick is exactly the assembly of the named `tick_*` values. -/
theorem liveTick_parts (env : Env) (bot : Bot) (scene : Scene)
    (targets : List TargetDescriptor) :
    liveTick env bot scene targets
      = (tick_b6 env bot scene targets, (tick_st env bot scene targets).1,
         tick_sh env bot scene targets ++ (tick_me env bot scene targets).2
           ++ (tick_st env bot scene targets).2) := rfl

/-- A live bot's update takes the live branch. -/
theorem update_live (env : Env) (bot : Bot) (scene : Scene)
    (targets : List TargetDescriptor) (h : bot.is_dead = false) :
    Bot.update env bot scene targets = liveTick env bot scene targets := by
  simp [Bot.update, h]

@[simp] theorem select_target_combat (bot : Bot) (env : Env)
    (ts : List TargetDescriptor) :
    (bot.select_target env ts).combat_machine = bot.combat_machine := rfl

@[simp] theorem select_target_weapons (bot : Bot) (env : Env)
    (ts : List TargetDescriptor) :
    (bot.select_target env ts).weapons = bot.weapons := rfl

@[simp] theorem select_target_current_weapon (bot : Bot) (env : Env)
    (ts : List TargetDescriptor) :
    (bot.select_target env ts).current_weapon = bot.current_weapon := rfl

@[simp] theorem select_weapon_target (bot : Bot) (env : Env) :
    (bot.select_weapon env).target = bot.target := by
  unfold Bot.select_weapon
  split
  · split
    · split <;> rfl
    · rfl
  · rfl

@[simp] theorem select_weapon_combat (bot : Bot) (env : Env) :
    (bot.select_weapon env).combat_machine = bot.combat_machine := by
  unfold Bot.select_weapon
  split
  · split
    · split <;> rfl
    · rfl
  · rfl

@[simp] theorem select_weapon_weapons (bot : Bot) (env : Env) :
    (bot.select_weapon env).weapons = bot.weapons := by
  unfold Bot.select_weapon
  split
  · split
    · split <;> rfl
    · rfl
  · rfl

@[simp] theorem select_poi_target (bot : Bot) (env : Env) :
    (bot.select_point_of_interest env).target = bot.target := by
  unfold Bot.select_point_of_interest
  split <;> rfl

@[simp] theorem select_poi_combat (bot : Bot) (env : Env) :
    (bot.select_point_of_interest env).combat_machine = bot.combat_machine := by
  unfold Bot.select_point_of_interest
  split <;> rfl

@[simp] theorem select_poi_weapons (bot : Bot) (env : Env) :
    (bot.select_point_of_interest env).weapons = bot.weapons := by
  unfold Bot.select_point_of_interest
  split <;> rfl

@[simp] theorem select_poi_current_weapon (bot : Bot) (env : Env) :
    (bot.select_point_of_interest env).current_weapon = bot.current_weapon := by
  unfold Bot.select_point_of_interest
  split <;> rfl

@[simp] theorem damageReaction_bot_target (bot : Bot) (hr : AnimState) :
    (damageReaction bot hr).bot.target = bot.target := by
  simp only [damageReaction]
  split <;> rfl

@[simp] theorem damageReaction_bot_weapons (bot : Bot) (hr : AnimState) :
    (damageReaction bot hr).bot.weapons = bot.weapons := by
  simp only [damageReaction]
  split <;> rfl

@[simp] theorem damageReaction_bot_current_weapon (bot : Bot) (hr : AnimState) :
    (damageReaction bot hr).bot.current_weapon = bot.current_weapon := by
  simp only [damageReaction]
  split <;> rfl

@[simp] theorem damageReaction_bot_combat (bot : Bot) (hr : AnimState) :
    (damageReaction bot hr).bot.combat_machine = bot.combat_machine := by
  simp only [damageReaction]
  split <;> rfl

@[simp] theorem moveStep_target (env : Env) (icc g : Bool) (p : Vec3)
    (bot : Bot) (scene : Scene) :
    (moveStep env icc g p bot scene).1.target = bot.target := by
  unfold moveStep
  split
  · split
    · split <;> rfl
    · rfl
  · rfl

@[simp] theorem moveStep_weapons (env : Env) (icc g : Bool) (p : Vec3)
    (bot : Bot) (scene : Scene) :
    (moveStep env icc g p bot scene).1.weapons = bot.weapons := by
  unfold moveStep
  split
  · split
    · split <;> rfl
    · rfl
  · rfl

@[simp] theorem moveStep_current_weapon (env : Env) (icc g : Bool) (p : Vec3)
    (bot : Bot) (scene : Scene) :
    (moveStep env icc g p bot scene).1.current_weapon = bot.current_weapon := by
  unfold moveStep
  split
  · split
    · split <;> rfl
    · rfl
  · rfl

@[simp] theorem moveStep_combat (env : Env) (icc g : Bool) (p : Vec3)
    (bot : Bot) (scene : Scene) :
    (moveStep env icc g p bot scene).1.combat_machine = bot.combat_machine := by
  unfold moveStep
  split
  · split
    · split <;> rfl
    · rfl
  · rfl

@[simp] theorem moveStep_whip (env : Env) (icc g : Bool) (p : Vec3)
    (bot : Bot) (scene : Scene) :
    (moveStep env icc g p bot scene).2.whip_animation = scene.whip_animation := by
  unfold moveStep
  split
  · split
    · split <;> rfl
    · rfl
  · rfl

@[simp] theorem aimStep_target (env : Env) (ld : Vec3) (bot : Bot) (scene : Scene) :
    (aimStep env ld bot scene).1.target = bot.target := by
  unfold aimStep
  split <;> rfl

@[simp] theorem aimStep_weapons (env : Env) (ld : Vec3) (bot : Bot) (scene : Scene) :
    (aimStep env ld bot scene).1.weapons = bot.weapons := by
  unfold aimStep
  split <;> rfl

@[simp] theorem aimStep_current_weapon (env : Env) (ld : Vec3) (bot : Bot)
    (scene : Scene) :
    (aimStep env ld bot scene).1.current_weapon = bot.current_weapon := by
  unfold aimStep
  split <;> rfl

@[simp] theorem aimStep_combat (env : Env) (ld : Vec3) (bot : Bot) (scene : Scene) :
    (aimStep env ld bot scene).1.combat_machine = bot.combat_machine := by
  unfold aimStep
  split <;> rfl

@[simp] theorem aimStep_whip (env : Env) (ld : Vec3) (bot : Bot) (scene : Scene) :
    (aimStep env ld bot scene).2.whip_animation = scene.whip_animation := by
  unfold aimStep
  split
  · split <;> rfl
  · rfl

@[simp] theorem stepSounds_whip (env : Env) (g : Bool) (loco : MachineState)
    (p : Vec3) (scene : Scene) :
    (stepSounds env g loco p scene).1.whip_animation = scene.whip_animation := by
  unfold stepSounds
  split <;> rfl

@[simp] theorem tick_s1_whip (env : Env) (bot : Bot) (scene : Scene)
    (targets : List TargetDescriptor) :
    (tick_s1 env bot scene targets).whip_animation = scene.whip_animation := by
  unfold tick_s1
  split <;> rfl

@[simp] theorem tick_s1_hit_reaction (env : Env) (bot : Bot) (scene : Scene)
    (targets : List TargetDescriptor) :
    (tick_s1 env bot scene targets).hit_reaction_animation
      = scene.hit_reaction_animation := by
  unfold tick_s1
  split <;> rfl

/-- The bot seen by the shoot/melee fragments carries the perception-phase
target. -/
theorem tick_b5_target (env : Env) (bot : Bot) (scene : Scene)
    (targets : List TargetDescriptor) :
    (tick_b5 env bot scene targets).target = (tick_b1 env bot targets).target := by
  simp [tick_b5, tick_b4, tick_am, tick_b3, tick_mv, tick_dr]

theorem tick_b5_weapons (env : Env) (bot : Bot) (scene : Scene)
    (targets : List TargetDescriptor) :
    (tick_b5 env bot scene targets).weapons = (tick_b1 env bot targets).weapons := by
  simp [tick_b5, tick_b4, tick_am, tick_b3, tick_mv, tick_dr]

theorem tick_b5_current_weapon (env : Env) (bot : Bot) (scene : Scene)
    (targets : List TargetDescriptor) :
    (tick_b5 env bot scene targets).current_weapon
      = (tick_b1 env bot targets).current_weapon := by
  simp [tick_b5, tick_b4, tick_am, tick_b3, tick_mv, tick_dr]

/-- The combat machine seen by the shoot fragment is the combat layer
application to the bot's pre-tick combat machine. -/
theorem tick_b5_combat (env : Env) (bot : Bot) (scene : Scene)
    (targets : List TargetDescriptor) :
    (tick_b5 env bot scene targets).combat_machine
      = CombatMachine.apply env.time_delta (tick_icc env bot targets)
          (tick_dr env bot scene targets).was_damaged
          (tick_dr env bot scene targets).can_aim bot.combat_machine := by
  simp [tick_b5, tick_b4, tick_am, tick_b3, tick_mv, tick_dr, tick_b1, perceive]

/-- The whip-animation queue the melee fragment drains is the pre-tick
queue. -/
theorem tick_am_whip (env : Env) (bot : Bot) (scene : Scene)
    (targets : List TargetDescriptor) :
    (tick_am env bot scene targets).2.whip_animation = scene.whip_animation := by
  simp [tick_am, tick_mv, tick_s2]

/-! ## Message lemmas -/

/-- A shoot request appears in the shoot fragment's output exactly under
its four source conditions plus the existence of the current weapon. -/
theorem shootMsgs_mem_iff (icc ca : Bool) (bot : Bot) (ld : Vec3) :
    (∃ w iv d, Message.shootWeapon w iv d ∈ shootMsgs icc ca bot ld) ↔
      (icc = false ∧ ca = true ∧ bot.can_shoot = true ∧ bot.target.isSome = true ∧
        (bot.weapons.get? bot.current_weapon).isSome = true) := by
  unfold shootMsgs
  by_cases hc : (!icc && ca && bot.can_shoot && bot.target.isSome) = true
  · rw [if_pos hc]
    simp only [Bool.and_eq_true, Bool.not_eq_true'] at hc
    obtain ⟨⟨⟨hicc, hca⟩, hcs⟩, ht⟩ := hc
    cases hw : bot.weapons.get? bot.current_weapon with
    | none =>
      simp [hicc, hca, hcs, ht, hw]
    | some w =>
      constructor
      · intro _
        exact ⟨hicc, hca, hcs, ht, rfl⟩
      · intro _
        exact ⟨w, ⟨0, 0, 0⟩, some ld, List.mem_singleton.mpr rfl⟩
  · rw [if_neg hc]
    constructor
    · rintro ⟨w, iv, d, hmem⟩
      exact absurd hmem (List.not_mem_nil _)
    · rintro ⟨hicc, hca, hcs, ht, -⟩
      exact absurd (by simp [hicc, hca, hcs, ht]) hc

/-- The melee fragment emits no shoot requests. -/
theorem meleeStep_no_shoot (icc : Bool) (t : Option Target) (scene : Scene) :
    ∀ w iv d, Message.shootWeapon w iv d ∉ (meleeStep icc t scene).2 := by
  intro w iv d hmem
  unfold meleeStep at hmem
  cases t with
  | none => exact absurd hmem (List.not_mem_nil _)
  | some tg =>
    simp only at hmem
    obtain ⟨ev, _, hev⟩ := List.mem_filterMap.mp hmem
    by_cases h : (ev.signal_id == HIT_SIGNAL && icc) = true
    · rw [if_pos h] at hev
      exact Message.noConfusion (Option.some.inj hev)
    · rw [if_neg h] at hev
      exact Option.noConfusion hev

/-- The footstep fragment emits no shoot requests. -/
theorem stepSounds_no_shoot (env : Env) (g : Bool) (loco : MachineState)
    (p : Vec3) (scene : Scene) :
    ∀ w iv d, Message.shootWeapon w iv d ∉ (stepSounds env g loco p scene).2 := by
  intro w iv d hmem
  unfold stepSounds at hmem
  by_cases hwk : is_walking loco = true
  · rw [if_pos hwk] at hmem
    simp only at hmem
    obtain ⟨ev, _, hev⟩ := List.mem_filterMap.mp hmem
    by_cases h : (ev.2.signal_id == STEP_SIGNAL && g) = true
    · rw [if_pos h] at hev
      exact Message.noConfusion (Option.some.inj hev)
    · rw [if_neg h] at hev
      exact Option.noConfusion hev
  · rw [if_neg hwk] at hmem
    exact absurd hmem (List.not_mem_nil _)

theorem damageOnly_append (a b : List Message) :
    damageOnly (a ++ b) = damageOnly a ++ damageOnly b := by
  unfold damageOnly
  exact List.filter_append _ _

/-- The shoot fragment contributes nothing to the damage messages. -/
theorem damageOnly_shootMsgs (icc ca : Bool) (bot : Bot) (ld : Vec3) :
    damageOnly (shootMsgs icc ca bot ld) = [] := by
  unfold shootMsgs
  split
  · split <;> rfl
  · rfl

/-- The footstep fragment contributes nothing to the damage messages. -/
theorem damageOnly_stepSounds (env : Env) (g : Bool) (loco : MachineState)
    (p : Vec3) (scene : Scene) :
    damageOnly ((stepSounds env g loco p scene).2) = [] := by
  unfold damageOnly stepSounds
  split
  · simp only
    rw [List.filter_eq_nil_iff]
    intro m hm
    obtain ⟨ev, _, hev⟩ := List.mem_filterMap.mp hm
    by_cases h : (ev.2.signal_id == STEP_SIGNAL && g) = true
    · rw [if_pos h] at hev
      cases Option.some.inj hev
      simp
    · rw [if_neg h] at hev
      exact Option.noConfusion hev
  · rfl

/-- The melee fragment's messages are all damage messages. -/
theorem damageOnly_meleeStep (icc : Bool) (t : Option Target) (scene : Scene) :
    damageOnly ((meleeStep icc t scene).2) = (meleeStep icc t scene).2 := by
  unfold damageOnly
  rw [List.filter_eq_self]
  intro m hm
  unfold meleeStep at hm
  cases t with
  | none => exact absurd hm (List.not_mem_nil _)
  | some tg =>
    simp only at hm
    obtain ⟨ev, _, hev⟩ := List.mem_filterMap.mp hm
    by_cases h : (ev.signal_id == HIT_SIGNAL && icc) = true
    · rw [if_pos h] at hev
      cases Option.some.inj hev
      simp
    · rw [if_neg h] at hev
      exact Option.noConfusion hev

/-- C7: a dead-bot tick drives only the Dying layer and zeroes the
horizontal velocity, leaving the vertical component; target, weapon
selection, point of interest, frustum, aim angles, the restoration timer,
the other two layers and all animation queues are untouched, and no
messages are sent. -/
theorem dead_tick_only_dying_and_velocity (env : Env) (bot : Bot) (scene : Scene)
    (targets : List TargetDescriptor) (hdead : bot.is_dead = true) :
    (Bot.update env bot scene targets).1.target = bot.target ∧
    (Bot.update env bot scene targets).1.current_weapon = bot.current_weapon ∧
    (Bot.update env bot scene targets).1.point_of_interest = bot.point_of_interest ∧
    (Bot.update env bot scene targets).1.last_poi_update_time
      = bot.last_poi_update_time ∧
    (Bot.update env bot scene targets).1.frustum = bot.frustum ∧
    (Bot.update env bot scene targets).1.yaw = bot.yaw ∧
    (Bot.update env bot scene targets).1.pitch = bot.pitch ∧
    (Bot.update env bot scene targets).1.restoration_time = bot.restoration_time ∧
    (Bot.update env bot scene targets).1.locomotion_machine
      = bot.locomotion_machine ∧
    (Bot.update env bot scene targets).1.combat_machine = bot.combat_machine ∧
    (Bot.update env bot scene targets).1.dying_machine
      = DyingMachine.step env.time_delta true bot.dying_machine ∧
    (Bot.update env bot scene targets).2.1.lin_vel
      = ⟨0, scene.lin_vel.y, 0⟩ ∧
    (Bot.update env bot scene targets).2.1.hit_reaction_animation
      = scene.hit_reaction_animation ∧
    (Bot.update env bot scene targets).2.1.whip_animation = scene.whip_animation ∧
    (Bot.update env bot scene targets).2.1.walk_animation = scene.walk_animation ∧
    (Bot.update env bot scene targets).2.2 = [] := by
  have hu : Bot.update env bot scene targets = deadTick env bot scene := by
    simp [Bot.update, hdead]
  rw [hu]
  unfold deadTick
  rw [hdead]
  exact ⟨rfl, rfl, rfl, rfl, rfl, rfl, rfl, rfl, rfl, rfl, rfl, rfl, rfl, rfl,
    rfl, rfl⟩

/-- Witness for C7 at a concrete dead bot. -/
theorem dead_tick_witness :
    (Bot.update exEnv exDeadBot exScene []).1.target = exDeadBot.target ∧
    (Bot.update exEnv exDeadBot exScene []).1.restoration_time
      = exDeadBot.restoration_time ∧
    (Bot.update exEnv exDeadBot exScene []).2.1.lin_vel
      = ⟨0, exScene.lin_vel.y, 0⟩ ∧
    (Bot.update exEnv exDeadBot exScene []).2.2 = [] := by
  have h := dead_tick_only_dying_and_velocity exEnv exDeadBot exScene []
    (by with_unfolding_all decide)
  exact ⟨h.1, h.2.2.2.2.2.2.2.1, h.2.2.2.2.2.2.2.2.2.2.2.1, h.2.2.2.2.2.2.2.2.2.2.2.2.2.2.2⟩

/-- On a live tick with a perceived target, the tick's damage messages are
exactly one fixed-amount request per hit-signal event of the pre-tick whip
queue, gated by the close-combat flag, and the whip queue is drained. -/
theorem live_damage_drain (env : Env) (bot : Bot) (scene : Scene)
    (targets : List TargetDescriptor) (t : Target)
    (hlive : bot.is_dead = false)
    (ht : (tick_b1 env bot targets).target = some t) :
    damageOnly ((Bot.update env bot scene targets).2.2)
      = scene.whip_animation.events.filterMap (fun ev =>
          if ev.signal_id == HIT_SIGNAL && tick_icc env bot targets then
            some (Message.damageActor t.handle 0 20)
          else none) ∧
    (Bot.update env bot scene targets).2.1.whip_animation.events = [] := by
  rw [update_live env bot scene targets hlive, liveTick_parts]
  have htb5 : (tick_b5 env bot scene targets).target = some t := by
    rw [tick_b5_target]
    exact ht
  constructor
  · rw [damageOnly_append, damageOnly_append]
    unfold tick_sh tick_st tick_me
    rw [damageOnly_shootMsgs, damageOnly_stepSounds, damageOnly_meleeStep]
    rw [htb5]
    unfold meleeStep
    simp only
    rw [tick_am_whip]
    simp
  · unfold tick_st
    rw [stepSounds_whip]
    unfold tick_me
    rw [htb5]
    rfl

/-- On a live tick without a perceived target, the whip queue is untouched
and no damage message is sent. -/
theorem live_no_drain (env : Env) (bot : Bot) (scene : Scene)
    (targets : List TargetDescriptor)
    (hlive : bot.is_dead = false)
    (hnone : (tick_b1 env bot targets).target = none) :
    (Bot.update env bot scene targets).2.1.whip_animation.events
      = scene.whip_animation.events ∧
    damageOnly ((Bot.update env bot scene targets).2.2) = [] := by
  rw [update_live env bot scene targets hlive, liveTick_parts]
  have htb5 : (tick_b5 env bot scene targets).target = none := by
    rw [tick_b5_target]
    exact hnone
  constructor
  · unfold tick_st
    rw [stepSounds_whip]
    unfold tick_me
    rw [htb5]
    show (tick_am env bot scene targets).2.whip_animation.events
      = scene.whip_animation.events
    rw [tick_am_whip]
  · rw [damageOnly_append, damageOnly_append]
    unfold tick_sh tick_st tick_me
    rw [damageOnly_shootMsgs, damageOnly_stepSounds, damageOnly_meleeStep]
    rw [htb5]
    rfl

/-- C8: on a live tick with a target, each whip hit-signal event drained
from the queue emits one fixed 20.0 damage request against that target iff
the tick is in close combat; events drained outside close combat emit
nothing; the queue is emptied. -/
theorem melee_hit_damage_iff (env : Env) (bot : Bot) (scene : Scene)
    (targets : List TargetDescriptor) (t : Target)
    (hlive : bot.is_dead = false)
    (ht : (tick_b1 env bot targets).target = some t) :
    damageOnly ((Bot.update env bot scene targets).2.2)
      = scene.whip_animation.events.filterMap (fun ev =>
          if ev.signal_id == HIT_SIGNAL && tick_icc env bot targets then
            some (Message.damageActor t.handle 0 20)
          else none) ∧
    (Bot.update env bot scene targets).2.1.whip_animation.events = [] ∧
    (tick_icc env bot targets = false →
      damageOnly ((Bot.update env bot scene targets).2.2) = []) := by
  obtain ⟨h1, h2⟩ := live_damage_drain env bot scene targets t hlive ht
  refine ⟨h1, h2, ?_⟩
  intro hicc
  rw [h1]
  simp [hicc]

/-- Witness for C8: a close-combat tick with one hit event and one stray
event in the whip queue. -/
theorem melee_hit_damage_witness :
    damageOnly ((Bot.update exEnv exBot exSceneC8 exC8targets).2.2)
      = exSceneC8.whip_animation.events.filterMap (fun ev =>
          if ev.signal_id == HIT_SIGNAL && tick_icc exEnv exBot exC8targets then
            some (Message.damageActor 1 0 20)
          else none) ∧
    (Bot.update exEnv exBot exSceneC8 exC8targets).2.1.whip_animation.events = [] := by
  have h := melee_hit_damage_iff exEnv exBot exSceneC8 exC8targets ⟨⟨0, 0, 1⟩, 1⟩
    (by with_unfolding_all decide) (by with_unfolding_all decide)
  exact ⟨h.1, h.2.1⟩

/-- C10: on a targetless live tick the whip queue is left untouched (and no
damage is emitted), so pending hit events persist; a later live tick that
does perceive a target, in close combat, drains them and emits the fixed
damage against that later target. -/
theorem whip_queue_persists_without_target (env : Env) (bot : Bot)
    (scene : Scene) (targets : List TargetDescriptor)
    (hlive : bot.is_dead = false)
    (hnone : (tick_b1 env bot targets).target = none) :
    (Bot.update env bot scene targets).2.1.whip_animation.events
      = scene.whip_animation.events ∧
    damageOnly ((Bot.update env bot scene targets).2.2) = [] ∧
    (∀ (env2 : Env) (bot2 : Bot) (targets2 : List TargetDescriptor)
        (t2 : Target) (scene2 : Scene),
      bot2.is_dead = false →
      (tick_b1 env2 bot2 targets2).target = some t2 →
      tick_icc env2 bot2 targets2 = true →
      scene2.whip_animation.events
        = (Bot.update env bot scene targets).2.1.whip_animation.events →
      damageOnly ((Bot.update env2 bot2 scene2 targets2).2.2)
        = scene.whip_animation.events.filterMap (fun ev =>
            if ev.signal_id == HIT_SIGNAL then
              some (Message.damageActor t2.handle 0 20)
            else none)) := by
  obtain ⟨h1, h2⟩ := live_no_drain env bot scene targets hlive hnone
  refine ⟨h1, h2, ?_⟩
  intro env2 bot2 targets2 t2 scene2 hlive2 ht2 hicc2 hq
  obtain ⟨g1, _⟩ := live_damage_drain env2 bot2 scene2 targets2 t2 hlive2 ht2
  rw [g1, hq, h1]
  simp only [hicc2, Bool.and_true]

/-- Witness for C10: a frustum that rejects everything leaves the queued
hit events in place and emits no damage. -/
theorem whip_queue_persists_witness :
    (Bot.update exEnv exBotC10 exSceneC8 exC8targets).2.1.whip_animation.events
      = exSceneC8.whip_animation.events ∧
    damageOnly ((Bot.update exEnv exBotC10 exSceneC8 exC8targets).2.2) = [] := by
  have h := whip_queue_persists_without_target exEnv exBotC10 exSceneC8 exC8targets
    (by with_unfolding_all decide) (by with_unfolding_all decide)
  exact ⟨h.1, h.2.1⟩

/-- C4 corrected: a live tick emits a shoot request iff it is not in close
combat, the recovery window has elapsed (`can_aim`), the Combat layer's
post-apply active state is Aim (`can_shoot`), a target exists — and the
current-weapon index refers to an existing weapon (a weaponless bot emits
nothing even when the four claimed conditions hold). -/
theorem shoot_request_iff (env : Env) (bot : Bot) (scene : Scene)
    (targets : List TargetDescriptor) (hlive : bot.is_dead = false) :
    (∃ w iv d, Message.shootWeapon w iv d
        ∈ (Bot.update env bot scene targets).2.2) ↔
      (tick_icc env bot targets = false ∧
       (tick_dr env bot scene targets).can_aim = true ∧
       (tick_b5 env bot scene targets).can_shoot = true ∧
       (tick_b1 env bot targets).target.isSome = true ∧
       ((tick_b1 env bot targets).weapons.get?
         (tick_b1 env bot targets).current_weapon).isSome = true) := by
  rw [update_live env bot scene targets hlive, liveTick_parts]
  constructor
  · rintro ⟨w, iv, d, hmem⟩
    simp only [List.mem_append] at hmem
    rcases hmem with (hmem | hmem) | hmem
    · unfold tick_sh at hmem
      have h := (shootMsgs_mem_iff (tick_icc env bot targets)
        (tick_dr env bot scene targets).can_aim (tick_b5 env bot scene targets)
        (tick_look env bot targets)).mp ⟨w, iv, d, hmem⟩
      rw [tick_b5_target, tick_b5_weapons, tick_b5_current_weapon] at h
      exact h
    · exact absurd hmem (meleeStep_no_shoot _ _ _ w iv d)
    · exact absurd hmem (stepSounds_no_shoot _ _ _ _ _ w iv d)
  · intro hcond
    rw [← tick_b5_target env bot scene targets,
      ← tick_b5_weapons env bot scene targets,
      ← tick_b5_current_weapon env bot scene targets] at hcond
    obtain ⟨w, iv, d, hmem⟩ := (shootMsgs_mem_iff (tick_icc env bot targets)
      (tick_dr env bot scene targets).can_aim (tick_b5 env bot scene targets)
      (tick_look env bot targets)).mpr hcond
    refine ⟨w, iv, d, ?_⟩
    simp only [List.mem_append]
    exact Or.inl (Or.inl hmem)

/-- C4 as stated is false: on this tick the bot is out of close combat, can
aim, its Combat layer is in Aim, and it has a target — yet it owns no
weapon, so no shoot request (indeed no message at all) is emitted. -/
theorem shoot_request_counterexample :
    tick_icc exEnv exBot exC4targets = false ∧
    (tick_dr exEnv exBot exScene exC4targets).can_aim = true ∧
    (tick_b5 exEnv exBot exScene exC4targets).can_shoot = true ∧
    (tick_b1 exEnv exBot exC4targets).target.isSome = true ∧
    (Bot.update exEnv exBot exScene exC4targets).2.2 = [] := by
  refine ⟨?_, ?_, ?_, ?_, ?_⟩ <;> with_unfolding_all decide

/-- Witness for the corrected C4: with one owned weapon the same tick does
emit a shoot request. -/
theorem shoot_request_iff_witness :
    tick_icc exEnv exBotC4w exC4targets = false ∧
    (∃ w iv d, Message.shootWeapon w iv d
      ∈ (Bot.update exEnv exBotC4w exScene exC4targets).2.2) :=
  ⟨by with_unfolding_all decide,
   (shoot_request_iff exEnv exBotC4w exScene exC4targets
      (by with_unfolding_all decide)).mpr (by with_unfolding_all decide)⟩

end Wood
